import Mathlib

/-!
# terraform-provider-prowlarr: resource adapters and CRUD handlers

A shallow embedding of three resources of the provider:

* `download_client_transmission_resource.go` (Transmission download client),
* `application_lidarr_resource.go` (Lidarr application),
* `notification_apprise_resource.go` (Apprise notification).

Conventions of the embedding.

* A Go method with a pointer receiver that mutates the receiver becomes a function
  returning the new record.
* `context.Context` arguments and `tflog.Trace` calls have no effect on the values
  studied here and are left out.
* Go `int` and `int64` are both 64 bits wide on the modelled platform, so the
  conversions `int(x)` and `int64(x)` between them are the identity; they are
  integers of Lean. The narrowing conversion `int32(x)` is `wrapSigned 32`.
* The generic models (`DownloadClient`, `Application`, `Notification`), their field
  codec and the `helpers` package belong to the repository but are not among the
  source files. The functions that call into them take the missing function as an
  argument.
-/

namespace Provider

/-! ## Machine integers -/

/-- Width of the Go type int on the modelled platform (strconv.IntSize). -/
def intSize : Nat := 64

/-- Conversion of an integer to the signed type of `w` bits: reduction modulo `2^w`
into the range `[-2^(w-1), 2^(w-1))`. -/
def wrapSigned (w : Nat) (x : Int) : Int :=
  (x + 2 ^ (w - 1)) % 2 ^ w - 2 ^ (w - 1)

/-! ## Values of terraform-plugin-framework (package `types`) -/

/-- Framework string (types.String): null, unknown, or a known Go string.
The Go zero value of the type is null. -/
inductive StringValue where
  | null
  | unknown
  | known (v : String)
  deriving DecidableEq, Repr

/-- Framework 64-bit integer (types.Int64). -/
inductive Int64Value where
  | null
  | unknown
  | known (v : Int)
  deriving DecidableEq, Repr

/-- Framework boolean (types.Bool). -/
inductive BoolValue where
  | null
  | unknown
  | known (v : Bool)
  deriving DecidableEq, Repr

/-- Framework set (types.Set) with elements of type `α`, kept in the order in which
the framework stores them. -/
inductive SetValue (α : Type) where
  | null
  | unknown
  | known (elems : List α)
  deriving DecidableEq, Repr

/-- Method ValueString: the known string, or the empty string for null and unknown. -/
def StringValue.ValueString : StringValue → String
  | .known v => v
  | _ => ""

/-- Method ValueInt64: the known integer, or 0 for null and unknown. -/
def Int64Value.ValueInt64 : Int64Value → Int
  | .known v => v
  | _ => 0

/-- Method ValueBool: the known boolean, or false for null and unknown. -/
def BoolValue.ValueBool : BoolValue → Bool
  | .known v => v
  | _ => false

/-- Known integer of a set element, when it has one. -/
def Int64Value.known? : Int64Value → Option Int
  | .known v => some v
  | _ => none

/-- All known integers of a list of elements, or none when one element is null or
unknown. -/
def knownInts : List Int64Value → Option (List Int)
  | [] => some []
  | e :: es =>
    match e.known?, knownInts es with
    | some v, some vs => some (v :: vs)
    | _, _ => none

/-- Call `tfsdk.ValueAs(ctx, set, &tags)` on a nil `tags []int`, diagnostics dropped
as the callers do. A null set leaves the nil slice (`none`); an unknown set, or a set
with a null or unknown element, is a conversion error and leaves the target nil; a
known set yields the non-nil slice of its elements. -/
def tagsValueAs : SetValue Int64Value → Option (List Int)
  | .null => none
  | .unknown => none
  | .known es => knownInts es

/-- Call `tfsdk.ValueFrom(ctx, tags, setType, &target)`, diagnostics dropped as the
callers do. A nil slice gives the null set; a slice with a repeated element fails
the set validation and leaves the target as it was; any other slice gives the known
set of its elements. -/
def tagsValueFrom (tags : Option (List Int)) (target : SetValue Int64Value) :
    SetValue Int64Value :=
  match tags with
  | none => .null
  | some xs => if xs.Nodup then .known (xs.map Int64Value.known) else target

/-! ## Diagnostics (package `diag`) -/

/-- Severity of a diagnostic. -/
inductive Severity where
  | error
  | warning
  deriving DecidableEq, Repr

/-- One diagnostic: severity, summary and detail. -/
structure Diagnostic where
  severity : Severity
  summary : String
  detail : String
  deriving DecidableEq, Repr

/-- Ordered collection of diagnostics (diag.Diagnostics). -/
abbrev Diagnostics := List Diagnostic

/-- Method HasError: some diagnostic has error severity. -/
def Diagnostics.HasError (diags : Diagnostics) : Bool :=
  diags.any (fun d => d.severity == Severity.error)

/-- Method Append: adds each given diagnostic that the collection does not hold yet. -/
def Diagnostics.Append (diags : Diagnostics) (new : List Diagnostic) : Diagnostics :=
  new.foldl (fun acc d => if acc.contains d then acc else acc ++ [d]) diags

/-- Method AddError: appends a new error diagnostic. -/
def Diagnostics.AddError (diags : Diagnostics) (summary detail : String) : Diagnostics :=
  diags.Append [{ severity := Severity.error, summary := summary, detail := detail }]

/-- Number of error diagnostics of a collection. -/
def Diagnostics.errorCount (diags : Diagnostics) : Nat :=
  diags.countP (fun d => d.severity == Severity.error)

/-! ## Wire types of the REST client -/

/-- Dynamic value of a field entry on the wire. -/
inductive WireValue where
  | str (s : String)
  | int (n : Int)
  | bool (b : Bool)
  | intSet (xs : List Int)
  | strSet (xs : List String)
  deriving DecidableEq, Repr

/-- Field entry of a request (starr.FieldInput). -/
structure FieldInput where
  Name : String
  Value : WireValue
  deriving DecidableEq, Repr

/-- Field entry of a response (starr.FieldOutput); only the name and the value are
kept. -/
structure FieldOutput where
  Name : String
  Value : WireValue
  deriving DecidableEq, Repr

/-- Request body of the download client endpoints (prowlarr.DownloadClientInput).
A nil `Tags` slice is `none`. -/
structure DownloadClientInput where
  Enable : Bool
  Priority : Int
  ID : Int
  ConfigContract : String
  Implementation : String
  Name : String
  Protocol : String
  Tags : Option (List Int)
  Fields : List FieldInput
  deriving DecidableEq, Repr

/-- Response body of the download client endpoints (prowlarr.DownloadClientOutput). -/
structure DownloadClientOutput where
  Enable : Bool
  Priority : Int
  ID : Int
  ConfigContract : String
  Implementation : String
  Name : String
  Protocol : String
  Tags : Option (List Int)
  Fields : List FieldOutput
  deriving DecidableEq, Repr

/-- Error returned by a REST call: the HTTP status code and the text of `Error()`. -/
structure RestError where
  code : Nat
  msg : String
  deriving DecidableEq, Repr

/-- The server no longer has the addressed id (HTTP 404). -/
def RestError.isNotFound (e : RestError) : Bool := e.code == 404

/-! ## Transmission download client -/

/-- Resource type name of the Transmission download client. -/
def downloadClientTransmissionResourceName : String := "download_client_transmission"

/-- Implementation tag of the Transmission download client. -/
def DownloadClientTransmissionImplementation : String := "Transmission"

/-- Config contract tag of the Transmission download client. -/
def DownloadClientTransmissionConfigContrat : String := "TransmissionSettings"

/-- Protocol of the Transmission download client. -/
def DownloadClientTransmissionProtocol : String := "torrent"

/-- Concrete record of the Transmission download client (the data model held in
state). -/
structure DownloadClientTransmission where
  Tags : SetValue Int64Value
  Name : StringValue
  Host : StringValue
  URLBase : StringValue
  Username : StringValue
  Password : StringValue
  TvCategory : StringValue
  TvDirectory : StringValue
  RecentTvPriority : Int64Value
  OlderTvPriority : Int64Value
  Priority : Int64Value
  Port : Int64Value
  ID : Int64Value
  AddPaused : BoolValue
  UseSsl : BoolValue
  Enable : BoolValue
  deriving DecidableEq, Repr

/-- Modelled from the spec: the declaration of the generic download client model
(struct DownloadClient) is missing from the source files. It has the sixteen
attributes that the Transmission adapter assigns and the implementation, config
contract and protocol tags of the envelope; a field that a composite literal does
not mention has the Go zero value, which is null. -/
structure DownloadClient where
  Tags : SetValue Int64Value := .null
  Name : StringValue := .null
  Host : StringValue := .null
  URLBase : StringValue := .null
  Username : StringValue := .null
  Password : StringValue := .null
  TvCategory : StringValue := .null
  TvDirectory : StringValue := .null
  RecentTvPriority : Int64Value := .null
  OlderTvPriority : Int64Value := .null
  Priority : Int64Value := .null
  Port : Int64Value := .null
  ID : Int64Value := .null
  AddPaused : BoolValue := .null
  UseSsl : BoolValue := .null
  Enable : BoolValue := .null
  ConfigContract : StringValue := .null
  Implementation : StringValue := .null
  Protocol : StringValue := .null
  deriving DecidableEq, Repr

/-- Method toDownloadClient: the generic model of a Transmission record. -/
def DownloadClientTransmission.toDownloadClient (d : DownloadClientTransmission) :
    DownloadClient :=
  { Tags := d.Tags
    Name := d.Name
    Host := d.Host
    URLBase := d.URLBase
    Username := d.Username
    Password := d.Password
    TvCategory := d.TvCategory
    TvDirectory := d.TvDirectory
    RecentTvPriority := d.RecentTvPriority
    OlderTvPriority := d.OlderTvPriority
    Priority := d.Priority
    Port := d.Port
    ID := d.ID
    AddPaused := d.AddPaused
    UseSsl := d.UseSsl
    Enable := d.Enable }

/-- Method fromDownloadClient: assigns the attributes of the generic model to the
record. -/
def DownloadClientTransmission.fromDownloadClient (d : DownloadClientTransmission)
    (client : DownloadClient) : DownloadClientTransmission :=
  let d := { d with Tags := client.Tags }
  let d := { d with Name := client.Name }
  let d := { d with Host := client.Host }
  let d := { d with URLBase := client.URLBase }
  let d := { d with Username := client.Username }
  let d := { d with Password := client.Password }
  let d := { d with TvCategory := client.TvCategory }
  let d := { d with TvDirectory := client.TvDirectory }
  let d := { d with RecentTvPriority := client.RecentTvPriority }
  let d := { d with OlderTvPriority := client.OlderTvPriority }
  let d := { d with Priority := client.Priority }
  let d := { d with Port := client.Port }
  let d := { d with ID := client.ID }
  let d := { d with AddPaused := client.AddPaused }
  let d := { d with UseSsl := client.UseSsl }
  let d := { d with Enable := client.Enable }
  d

/-- Method write: rebuilds the record from a server response. The generic model is
built from the envelope of the response, the tags are converted with
`tfsdk.ValueFrom`, the field list is decoded by the generic method `writeFields`
(an argument here), and the result is assigned to the record. -/
def DownloadClientTransmission.write
    (writeFields : DownloadClient → List FieldOutput → DownloadClient)
    (d : DownloadClientTransmission) (downloadClient : DownloadClientOutput) :
    DownloadClientTransmission :=
  let genericDownloadClient : DownloadClient :=
    { Enable := .known downloadClient.Enable
      Priority := .known downloadClient.Priority
      ID := .known downloadClient.ID
      Name := .known downloadClient.Name
      Tags := .known [] }
  let genericDownloadClient :=
    { genericDownloadClient with
      Tags := tagsValueFrom downloadClient.Tags genericDownloadClient.Tags }
  let genericDownloadClient := writeFields genericDownloadClient downloadClient.Fields
  d.fromDownloadClient genericDownloadClient

/-- Method read: the wire request of a record. The field list is encoded by the
generic method `readFields` (an argument here). -/
def DownloadClientTransmission.read
    (readFields : DownloadClient → List FieldInput)
    (d : DownloadClientTransmission) : DownloadClientInput :=
  let tags : Option (List Int) := tagsValueAs d.Tags
  { Enable := d.Enable.ValueBool
    Priority := d.Priority.ValueInt64
    ID := d.ID.ValueInt64
    ConfigContract := DownloadClientTransmissionConfigContrat
    Implementation := DownloadClientTransmissionImplementation
    Name := d.Name.ValueString
    Protocol := DownloadClientTransmissionProtocol
    Tags := tags
    Fields := readFields d.toDownloadClient }

/-- Modelled from the spec: the field codec of the generic download client model
(methods readFields and writeFields) is missing from the source files. A codec error
of section 4.1 of the specification. -/
inductive CodecError where
  | FieldTypeMismatch (name : String)
  deriving DecidableEq, Repr

/-- Modelled from the spec: the field codec is missing from the source files. Entry
of a field list with the given name, if the list has one. -/
def lookupField (fields : List FieldOutput) (name : String) : Option WireValue :=
  (fields.find? (fun f => f.Name == name)).map (fun f => f.Value)

/-- Modelled from the spec: the field codec is missing from the source files. Decoding
of a string field: the zero value when the entry is absent, the known string when it
is present, a type mismatch when the entry holds another kind of value. -/
def decodeStringField (fields : List FieldOutput) (name : String) :
    Except CodecError StringValue :=
  match lookupField fields name with
  | none => .ok .null
  | some (.str s) => .ok (.known s)
  | some _ => .error (.FieldTypeMismatch name)

/-- Modelled from the spec: the field codec is missing from the source files. Decoding
of an integer field. -/
def decodeInt64Field (fields : List FieldOutput) (name : String) :
    Except CodecError Int64Value :=
  match lookupField fields name with
  | none => .ok .null
  | some (.int n) => .ok (.known n)
  | some _ => .error (.FieldTypeMismatch name)

/-- Modelled from the spec: the field codec is missing from the source files. Decoding
of an integer field whose field spec declares an enum validation: the zero value when
the entry is absent, the known integer when it is one of the allowed values, and a
rejection when the entry holds another integer or another kind of value. -/
def decodeEnumField (fields : List FieldOutput) (name : String) (allowed : List Int) :
    Except CodecError Int64Value :=
  match lookupField fields name with
  | none => .ok .null
  | some (.int n) =>
    if allowed.contains n then .ok (.known n) else .error (.FieldTypeMismatch name)
  | some _ => .error (.FieldTypeMismatch name)

/-- Modelled from the spec: the field codec is missing from the source files. Decoding
of a boolean field. -/
def decodeBoolField (fields : List FieldOutput) (name : String) :
    Except CodecError BoolValue :=
  match lookupField fields name with
  | none => .ok .null
  | some (.bool b) => .ok (.known b)
  | some _ => .error (.FieldTypeMismatch name)

/-- Modelled from the spec: the field codec is missing from the source files. Decoding
of the eleven implementation fields of Transmission into a generic model; the recent
and older TV priorities are declared with the allowed values 0 and 1. -/
def decodeFields (g : DownloadClient) (fields : List FieldOutput) :
    Except CodecError DownloadClient := do
  let host ← decodeStringField fields "host"
  let urlBase ← decodeStringField fields "urlBase"
  let username ← decodeStringField fields "username"
  let password ← decodeStringField fields "password"
  let tvCategory ← decodeStringField fields "tvCategory"
  let tvDirectory ← decodeStringField fields "tvDirectory"
  let recentTvPriority ← decodeEnumField fields "recentTvPriority" [0, 1]
  let olderTvPriority ← decodeEnumField fields "olderTvPriority" [0, 1]
  let port ← decodeInt64Field fields "port"
  let addPaused ← decodeBoolField fields "addPaused"
  let useSsl ← decodeBoolField fields "useSsl"
  pure { g with
    Host := host
    URLBase := urlBase
    Username := username
    Password := password
    TvCategory := tvCategory
    TvDirectory := tvDirectory
    RecentTvPriority := recentTvPriority
    OlderTvPriority := olderTvPriority
    Port := port
    AddPaused := addPaused
    UseSsl := useSsl }

/-- Modelled from the spec: the generic method writeFields is missing from the source
files. It decodes the field list into the generic model; the method returns nothing,
so on a codec error the model is left as it was. -/
def specWriteFields (g : DownloadClient) (fields : List FieldOutput) : DownloadClient :=
  match decodeFields g fields with
  | .ok g' => g'
  | .error _ => g

/-- Modelled from the spec: the generic method readFields is missing from the source
files. It produces one entry for each implementation field, zero-valued fields
included. -/
def specReadFields (g : DownloadClient) : List FieldInput :=
  [ { Name := "host", Value := .str g.Host.ValueString },
    { Name := "urlBase", Value := .str g.URLBase.ValueString },
    { Name := "username", Value := .str g.Username.ValueString },
    { Name := "password", Value := .str g.Password.ValueString },
    { Name := "tvCategory", Value := .str g.TvCategory.ValueString },
    { Name := "tvDirectory", Value := .str g.TvDirectory.ValueString },
    { Name := "recentTvPriority", Value := .int g.RecentTvPriority.ValueInt64 },
    { Name := "olderTvPriority", Value := .int g.OlderTvPriority.ValueInt64 },
    { Name := "port", Value := .int g.Port.ValueInt64 },
    { Name := "addPaused", Value := .bool g.AddPaused.ValueBool },
    { Name := "useSsl", Value := .bool g.UseSsl.ValueBool } ]

/-- Server response that carries exactly the values of a request: the same id, name,
enable flag, priority, tags and field list. -/
def echoResponse (request : DownloadClientInput) : DownloadClientOutput :=
  { Enable := request.Enable
    Priority := request.Priority
    ID := request.ID
    ConfigContract := request.ConfigContract
    Implementation := request.Implementation
    Name := request.Name
    Protocol := request.Protocol
    Tags := request.Tags
    Fields := request.Fields.map (fun f => { Name := f.Name, Value := f.Value }) }

/-! ## CRUD handlers of the Transmission resource -/

/-- Summary of the diagnostics for a failed REST call (tools.ClientError). -/
def tools.ClientError : String := "Client Error"

/-- Summary of the diagnostic for a malformed import identifier
(tools.UnexpectedImportIdentifier). -/
def tools.UnexpectedImportIdentifier : String := "Unexpected Import Identifier"

/-- Summary of the diagnostic for provider data of the wrong type
(tools.UnexpectedResourceConfigureType). -/
def tools.UnexpectedResourceConfigureType : String := "Unexpected Resource Configure Type"

/-- Response of a handler: the diagnostics and the state. A state without a resource
(never set, or removed) is `none`. -/
structure Response (α : Type) where
  Diagnostics : Diagnostics
  State : Option α
  deriving DecidableEq, Repr

/-- Result of running a handler: the response it leaves and the REST calls it made,
in order. -/
structure Outcome (α κ : Type) where
  resp : Response α
  calls : List κ
  deriving DecidableEq, Repr

/-- REST client of the download client endpoints (the methods of prowlarr.Prowlarr
that the resource calls). A Go result `(response, err)` is an `Except`; the result
`err` of the delete call is an `Option`. -/
structure Prowlarr where
  AddDownloadClientContext : DownloadClientInput → Except RestError DownloadClientOutput
  GetDownloadClientContext : Int → Except RestError DownloadClientOutput
  UpdateDownloadClientContext : DownloadClientInput → Except RestError DownloadClientOutput
  DeleteDownloadClientContext : Int → Option RestError

/-- A REST call of the Transmission resource, with its argument. -/
inductive DownloadClientCall where
  | add (request : DownloadClientInput)
  | get (id : Int)
  | update (request : DownloadClientInput)
  | delete (id : Int)
  deriving DecidableEq, Repr

/-- Handler Create. `planDiags` and `client` are what `req.Plan.Get` returned and
decoded; `resp` is the response on entry. `resp.State.Set` stores the record and
returns no diagnostic. -/
def DownloadClientTransmissionResource.Create
    (readFields : DownloadClient → List FieldInput)
    (writeFields : DownloadClient → List FieldOutput → DownloadClient)
    (r : Prowlarr) (planDiags : Diagnostics) (client : DownloadClientTransmission)
    (resp : Response DownloadClientTransmission) :
    Outcome DownloadClientTransmission DownloadClientCall :=
  let resp := { resp with Diagnostics := resp.Diagnostics.Append planDiags }
  if resp.Diagnostics.HasError then
    { resp := resp, calls := [] }
  else
    let request := client.read readFields
    match r.AddDownloadClientContext request with
    | .error err =>
      let detail := "Unable to create " ++ downloadClientTransmissionResourceName ++
        ", got error: " ++ err.msg
      { resp := { resp with Diagnostics := resp.Diagnostics.AddError tools.ClientError detail }
        calls := [.add request] }
    | .ok response =>
      let client := client.write writeFields response
      { resp := { resp with Diagnostics := resp.Diagnostics.Append [], State := some client }
        calls := [.add request] }

/-- Handler Read. `stateDiags` and `client` are what `req.State.Get` returned and
decoded. -/
def DownloadClientTransmissionResource.Read
    (writeFields : DownloadClient → List FieldOutput → DownloadClient)
    (r : Prowlarr) (stateDiags : Diagnostics) (client : DownloadClientTransmission)
    (resp : Response DownloadClientTransmission) :
    Outcome DownloadClientTransmission DownloadClientCall :=
  let resp := { resp with Diagnostics := resp.Diagnostics.Append stateDiags }
  if resp.Diagnostics.HasError then
    { resp := resp, calls := [] }
  else
    match r.GetDownloadClientContext client.ID.ValueInt64 with
    | .error err =>
      let detail := "Unable to read " ++ downloadClientTransmissionResourceName ++
        ", got error: " ++ err.msg
      { resp := { resp with Diagnostics := resp.Diagnostics.AddError tools.ClientError detail }
        calls := [.get client.ID.ValueInt64] }
    | .ok response =>
      let client' := client.write writeFields response
      { resp := { resp with Diagnostics := resp.Diagnostics.Append [], State := some client' }
        calls := [.get client.ID.ValueInt64] }

/-- Handler Update. `planDiags` and `client` are what `req.Plan.Get` returned and
decoded. -/
def DownloadClientTransmissionResource.Update
    (readFields : DownloadClient → List FieldInput)
    (writeFields : DownloadClient → List FieldOutput → DownloadClient)
    (r : Prowlarr) (planDiags : Diagnostics) (client : DownloadClientTransmission)
    (resp : Response DownloadClientTransmission) :
    Outcome DownloadClientTransmission DownloadClientCall :=
  let resp := { resp with Diagnostics := resp.Diagnostics.Append planDiags }
  if resp.Diagnostics.HasError then
    { resp := resp, calls := [] }
  else
    let request := client.read readFields
    match r.UpdateDownloadClientContext request with
    | .error err =>
      let detail := "Unable to update " ++ downloadClientTransmissionResourceName ++
        ", got error: " ++ err.msg
      { resp := { resp with Diagnostics := resp.Diagnostics.AddError tools.ClientError detail }
        calls := [.update request] }
    | .ok response =>
      let client := client.write writeFields response
      { resp := { resp with Diagnostics := resp.Diagnostics.Append [], State := some client }
        calls := [.update request] }

/-- Handler Delete. `stateDiags` and `client` are what `req.State.Get` returned and
decoded. -/
def DownloadClientTransmissionResource.Delete
    (r : Prowlarr) (stateDiags : Diagnostics) (client : DownloadClientTransmission)
    (resp : Response DownloadClientTransmission) :
    Outcome DownloadClientTransmission DownloadClientCall :=
  let resp := { resp with Diagnostics := resp.Diagnostics.Append stateDiags }
  if resp.Diagnostics.HasError then
    { resp := resp, calls := [] }
  else
    match r.DeleteDownloadClientContext client.ID.ValueInt64 with
    | some err =>
      let detail := "Unable to read " ++ downloadClientTransmissionResourceName ++
        ", got error: " ++ err.msg
      { resp := { resp with Diagnostics := resp.Diagnostics.AddError tools.ClientError detail }
        calls := [.delete client.ID.ValueInt64] }
    | none =>
      { resp := { resp with State := none }
        calls := [.delete client.ID.ValueInt64] }

/-! ## Import of the Transmission resource -/

/-- Error kinds of package strconv. -/
inductive NumError where
  | ErrSyntax
  | ErrRange
  deriving DecidableEq, Repr

/-- Digit loop of strconv.ParseUint in base 10: the value of a run of the digits 0-9
after the accumulator `n`, a syntax error at any other character. The value is not
bounded here; the bound is checked by the caller. -/
def parseDigits : List Char → Nat → Except NumError Nat
  | [], n => .ok n
  | c :: cs, n =>
    if c.isDigit then parseDigits cs (n * 10 + (c.toNat - 48)) else .error .ErrSyntax

/-- Function strconv.ParseUint in base 10 without underscores: the empty string is a
syntax error. -/
def ParseUint (s : List Char) : Except NumError Nat :=
  if s.isEmpty then .error .ErrSyntax else parseDigits s 0

/-- Function strconv.Atoi, which is ParseInt(s, 10, 0): an optional sign, then a
non-empty run of digits, whose signed value has to fit the type int. Which of the two
error kinds is returned for an input that has both defects is not observed by the
caller. -/
def Atoi (s : String) : Except NumError Int :=
  match s.toList with
  | [] => .error .ErrSyntax
  | c :: cs =>
    let neg := c == '-'
    let digits := if c == '+' || c == '-' then cs else c :: cs
    match ParseUint digits with
    | .error e => .error e
    | .ok un =>
      let cutoff : Nat := 2 ^ (intSize - 1)
      if !neg && un ≥ cutoff then .error .ErrRange
      else if neg && un > cutoff then .error .ErrRange
      else .ok (if neg then -(un : Int) else (un : Int))

/-- Function strconv.Itoa: the decimal text of an integer. -/
def Itoa (n : Int) : String := toString n

/-- Record in which every attribute is null: what an empty state decodes to. -/
def DownloadClientTransmission.allNull : DownloadClientTransmission :=
  { Tags := .null, Name := .null, Host := .null, URLBase := .null, Username := .null,
    Password := .null, TvCategory := .null, TvDirectory := .null,
    RecentTvPriority := .null, OlderTvPriority := .null, Priority := .null,
    Port := .null, ID := .null, AddPaused := .null, UseSsl := .null, Enable := .null }

/-- Call `resp.State.SetAttribute(ctx, path.Root("id"), id)`: the attribute id
becomes the known integer and every other attribute keeps its value (null in an
empty state). It returns no diagnostic. -/
def setAttributeID (state : Option DownloadClientTransmission) (id : Int) :
    Option DownloadClientTransmission :=
  some { state.getD DownloadClientTransmission.allNull with ID := .known id }

/-- Handler ImportState. `ID` is the import identifier `req.ID`; `quote` is the
formatting verb `%q` of package fmt. The handler has no access to the REST client. -/
def DownloadClientTransmissionResource.ImportState (quote : String → String)
    (ID : String) (resp : Response DownloadClientTransmission) :
    Outcome DownloadClientTransmission DownloadClientCall :=
  match Atoi ID with
  | .error _ =>
    let detail := "Expected import identifier with format: ID. Got: " ++ quote ID
    { resp := { resp with
        Diagnostics := resp.Diagnostics.AddError tools.UnexpectedImportIdentifier detail }
      calls := [] }
  | .ok id =>
    { resp := { resp with
        Diagnostics := resp.Diagnostics.Append []
        State := setAttributeID resp.State id }
      calls := [] }

/-! ## Package helpers -/

/-- Operation constants of package helpers (helpers.Create, helpers.Read,
helpers.Update, helpers.Delete). -/
inductive helpers.Operation where
  | Create
  | Read
  | Update
  | Delete
  deriving DecidableEq, Repr

/-- Summary of the diagnostics for a failed REST call (helpers.ClientError). -/
def helpers.ClientError : String := "Client Error"

/-! ## Lidarr application -/

/-- Resource type name of the Lidarr application. -/
def applicationLidarrResourceName : String := "application_lidarr"

/-- Implementation tag of the Lidarr application. -/
def applicationLidarrImplementation : String := "Lidarr"

/-- Config contract tag of the Lidarr application. -/
def applicationLidarrConfigContract : String := "LidarrSettings"

/-- Concrete record of the Lidarr application. -/
structure ApplicationLidarr where
  SyncCategories : SetValue Int64Value
  Tags : SetValue Int64Value
  Name : StringValue
  SyncLevel : StringValue
  ProwlarrURL : StringValue
  BaseURL : StringValue
  APIKey : StringValue
  ID : Int64Value
  deriving DecidableEq, Repr

/-- Modelled from the spec: the declaration of the generic application model (struct
Application) is missing from the source files. It has the eight attributes that the
Lidarr adapter assigns and the implementation and config contract tags of the
envelope. -/
structure Application where
  SyncCategories : SetValue Int64Value := .null
  Tags : SetValue Int64Value := .null
  Name : StringValue := .null
  SyncLevel : StringValue := .null
  ProwlarrURL : StringValue := .null
  BaseURL : StringValue := .null
  APIKey : StringValue := .null
  ID : Int64Value := .null
  ConfigContract : StringValue := .null
  Implementation : StringValue := .null
  deriving DecidableEq, Repr

/-- Wire body of the application endpoints (prowlarr.ApplicationResource); `Id` is
what the method GetId returns, a 32-bit integer. -/
structure ApplicationResource where
  Id : Int
  Name : String
  SyncLevel : String
  Implementation : String
  ConfigContract : String
  Tags : List Int
  Fields : List FieldInput
  deriving DecidableEq, Repr

/-- Method toApplication: the generic model of a Lidarr record, stamped with the
constants of the adapter. -/
def ApplicationLidarr.toApplication (a : ApplicationLidarr) : Application :=
  { SyncCategories := a.SyncCategories
    Tags := a.Tags
    Name := a.Name
    SyncLevel := a.SyncLevel
    ProwlarrURL := a.ProwlarrURL
    BaseURL := a.BaseURL
    APIKey := a.APIKey
    ID := a.ID
    ConfigContract := .known applicationLidarrConfigContract
    Implementation := .known applicationLidarrImplementation }

/-- Method fromApplication: assigns the attributes of the generic model to the
record. -/
def ApplicationLidarr.fromApplication (a : ApplicationLidarr) (application : Application) :
    ApplicationLidarr :=
  let a := { a with Tags := application.Tags }
  let a := { a with Name := application.Name }
  let a := { a with ID := application.ID }
  let a := { a with SyncLevel := application.SyncLevel }
  let a := { a with SyncCategories := application.SyncCategories }
  let a := { a with BaseURL := application.BaseURL }
  let a := { a with ProwlarrURL := application.ProwlarrURL }
  let a := { a with APIKey := application.APIKey }
  a

/-- Method write: the generic method `Application.write` (an argument here) updates
the generic model of the record and the diagnostics from the response; the result is
assigned to the record. -/
def ApplicationLidarr.write
    (genericWrite : Application → ApplicationResource → Diagnostics → Application × Diagnostics)
    (a : ApplicationLidarr) (application : ApplicationResource) (diags : Diagnostics) :
    ApplicationLidarr × Diagnostics :=
  let genericApplication := a.toApplication
  let (genericApplication, diags) := genericWrite genericApplication application diags
  (a.fromApplication genericApplication, diags)

/-- Method read: the generic method `Application.read` (an argument here) applied to
the generic model of the record. -/
def ApplicationLidarr.read
    (genericRead : Application → Diagnostics → ApplicationResource × Diagnostics)
    (a : ApplicationLidarr) (diags : Diagnostics) : ApplicationResource × Diagnostics :=
  genericRead a.toApplication diags

/-- REST client of the application endpoints (ApplicationApi of prowlarr.APIClient). -/
structure ApplicationApi where
  CreateApplications : ApplicationResource → Except RestError ApplicationResource
  GetApplicationsById : Int → Except RestError ApplicationResource
  UpdateApplications : String → ApplicationResource → Except RestError ApplicationResource
  DeleteApplications : Int → Option RestError

/-- A REST call of the Lidarr resource, with its arguments. -/
inductive ApplicationCall where
  | create (request : ApplicationResource)
  | get (id : Int)
  | update (id : String) (request : ApplicationResource)
  | delete (id : Int)
  deriving DecidableEq, Repr

/-- Handler Create of the Lidarr resource. `planDiags` and `application` are what
`req.Plan.Get` returned and decoded; `ParseClientError` is the function of package
helpers that builds the message of a failed call. -/
def ApplicationLidarrResource.Create
    (genericRead : Application → Diagnostics → ApplicationResource × Diagnostics)
    (genericWrite : Application → ApplicationResource → Diagnostics → Application × Diagnostics)
    (ParseClientError : helpers.Operation → String → RestError → String)
    (r : ApplicationApi) (planDiags : Diagnostics) (application : ApplicationLidarr)
    (resp : Response ApplicationLidarr) : Outcome ApplicationLidarr ApplicationCall :=
  let resp := { resp with Diagnostics := resp.Diagnostics.Append planDiags }
  if resp.Diagnostics.HasError then
    { resp := resp, calls := [] }
  else
    let (request, diags) := application.read genericRead resp.Diagnostics
    let resp := { resp with Diagnostics := diags }
    match r.CreateApplications request with
    | .error err =>
      let detail := ParseClientError .Create applicationLidarrResourceName err
      { resp := { resp with Diagnostics := resp.Diagnostics.AddError helpers.ClientError detail }
        calls := [.create request] }
    | .ok response =>
      let (application, diags) := application.write genericWrite response resp.Diagnostics
      { resp := { resp with Diagnostics := diags.Append [], State := some application }
        calls := [.create request] }

/-- Handler Read of the Lidarr resource. `stateDiags` and `application` are what
`req.State.Get` returned and decoded. -/
def ApplicationLidarrResource.Read
    (genericWrite : Application → ApplicationResource → Diagnostics → Application × Diagnostics)
    (ParseClientError : helpers.Operation → String → RestError → String)
    (r : ApplicationApi) (stateDiags : Diagnostics) (application : ApplicationLidarr)
    (resp : Response ApplicationLidarr) : Outcome ApplicationLidarr ApplicationCall :=
  let resp := { resp with Diagnostics := resp.Diagnostics.Append stateDiags }
  if resp.Diagnostics.HasError then
    { resp := resp, calls := [] }
  else
    let id := wrapSigned 32 application.ID.ValueInt64
    match r.GetApplicationsById id with
    | .error err =>
      let detail := ParseClientError .Read applicationLidarrResourceName err
      { resp := { resp with Diagnostics := resp.Diagnostics.AddError helpers.ClientError detail }
        calls := [.get id] }
    | .ok response =>
      let (application, diags) := application.write genericWrite response resp.Diagnostics
      { resp := { resp with Diagnostics := diags.Append [], State := some application }
        calls := [.get id] }

/-- Handler Update of the Lidarr resource. `planDiags` and `application` are what
`req.Plan.Get` returned and decoded. -/
def ApplicationLidarrResource.Update
    (genericRead : Application → Diagnostics → ApplicationResource × Diagnostics)
    (genericWrite : Application → ApplicationResource → Diagnostics → Application × Diagnostics)
    (ParseClientError : helpers.Operation → String → RestError → String)
    (r : ApplicationApi) (planDiags : Diagnostics) (application : ApplicationLidarr)
    (resp : Response ApplicationLidarr) : Outcome ApplicationLidarr ApplicationCall :=
  let resp := { resp with Diagnostics := resp.Diagnostics.Append planDiags }
  if resp.Diagnostics.HasError then
    { resp := resp, calls := [] }
  else
    let (request, diags) := application.read genericRead resp.Diagnostics
    let resp := { resp with Diagnostics := diags }
    match r.UpdateApplications (Itoa request.Id) request with
    | .error err =>
      let detail := ParseClientError .Update applicationLidarrResourceName err
      { resp := { resp with Diagnostics := resp.Diagnostics.AddError helpers.ClientError detail }
        calls := [.update (Itoa request.Id) request] }
    | .ok response =>
      let (application, diags) := application.write genericWrite response resp.Diagnostics
      { resp := { resp with Diagnostics := diags.Append [], State := some application }
        calls := [.update (Itoa request.Id) request] }

/-- Handler Delete of the Lidarr resource. `stateDiags` and `ID` are what
`req.State.GetAttribute` returned and decoded for the attribute id. -/
def ApplicationLidarrResource.Delete
    (ParseClientError : helpers.Operation → String → RestError → String)
    (r : ApplicationApi) (stateDiags : Diagnostics) (ID : Int)
    (resp : Response ApplicationLidarr) : Outcome ApplicationLidarr ApplicationCall :=
  let resp := { resp with Diagnostics := resp.Diagnostics.Append stateDiags }
  if resp.Diagnostics.HasError then
    { resp := resp, calls := [] }
  else
    match r.DeleteApplications (wrapSigned 32 ID) with
    | some err =>
      let detail := ParseClientError .Delete applicationLidarrResourceName err
      { resp := { resp with Diagnostics := resp.Diagnostics.AddError helpers.ClientError detail }
        calls := [.delete (wrapSigned 32 ID)] }
    | none =>
      { resp := { resp with State := none }
        calls := [.delete (wrapSigned 32 ID)] }

/-! ## Apprise notification -/

/-- Resource type name of the Apprise notification. -/
def notificationAppriseResourceName : String := "notification_apprise"

/-- Implementation tag of the Apprise notification. -/
def notificationAppriseImplementation : String := "Apprise"

/-- Config contract tag of the Apprise notification. -/
def notificationAppriseConfigContract : String := "AppriseSettings"

/-- Concrete record of the Apprise notification. -/
structure NotificationApprise where
  Tags : SetValue Int64Value
  FieldTags : SetValue StringValue
  ConfigurationKey : StringValue
  StatelessURLs : StringValue
  BaseURL : StringValue
  AuthUsername : StringValue
  AuthPassword : StringValue
  Name : StringValue
  ID : Int64Value
  IncludeHealthWarnings : BoolValue
  OnApplicationUpdate : BoolValue
  OnHealthIssue : BoolValue
  deriving DecidableEq, Repr

/-- Modelled from the spec: the declaration of the generic notification model (struct
Notification) is missing from the source files. It has the twelve attributes that the
Apprise adapter assigns and the implementation and config contract tags of the
envelope. -/
structure Notification where
  Tags : SetValue Int64Value := .null
  FieldTags : SetValue StringValue := .null
  ConfigurationKey : StringValue := .null
  StatelessURLs : StringValue := .null
  BaseURL : StringValue := .null
  AuthUsername : StringValue := .null
  AuthPassword : StringValue := .null
  Name : StringValue := .null
  ID : Int64Value := .null
  IncludeHealthWarnings : BoolValue := .null
  OnApplicationUpdate : BoolValue := .null
  OnHealthIssue : BoolValue := .null
  ConfigContract : StringValue := .null
  Implementation : StringValue := .null
  deriving DecidableEq, Repr

/-- Wire body of the notification endpoints (prowlarr.NotificationResource); `Id` is
what the method GetId returns, a 32-bit integer. -/
structure NotificationResource where
  Id : Int
  Name : String
  Implementation : String
  ConfigContract : String
  Tags : List Int
  Fields : List FieldInput
  deriving DecidableEq, Repr

/-- Method toNotification: the generic model of an Apprise record, stamped with the
constants of the adapter. -/
def NotificationApprise.toNotification (n : NotificationApprise) : Notification :=
  { Tags := n.Tags
    FieldTags := n.FieldTags
    ConfigurationKey := n.ConfigurationKey
    BaseURL := n.BaseURL
    StatelessURLs := n.StatelessURLs
    AuthUsername := n.AuthUsername
    AuthPassword := n.AuthPassword
    Name := n.Name
    ID := n.ID
    IncludeHealthWarnings := n.IncludeHealthWarnings
    OnApplicationUpdate := n.OnApplicationUpdate
    OnHealthIssue := n.OnHealthIssue
    ConfigContract := .known notificationAppriseConfigContract
    Implementation := .known notificationAppriseImplementation }

/-- Method fromNotification: assigns the attributes of the generic model to the
record. -/
def NotificationApprise.fromNotification (n : NotificationApprise)
    (notification : Notification) : NotificationApprise :=
  let n := { n with Tags := notification.Tags }
  let n := { n with FieldTags := notification.FieldTags }
  let n := { n with ConfigurationKey := notification.ConfigurationKey }
  let n := { n with BaseURL := notification.BaseURL }
  let n := { n with StatelessURLs := notification.StatelessURLs }
  let n := { n with AuthUsername := notification.AuthUsername }
  let n := { n with AuthPassword := notification.AuthPassword }
  let n := { n with Name := notification.Name }
  let n := { n with ID := notification.ID }
  let n := { n with IncludeHealthWarnings := notification.IncludeHealthWarnings }
  let n := { n with OnApplicationUpdate := notification.OnApplicationUpdate }
  let n := { n with OnHealthIssue := notification.OnHealthIssue }
  n

/-- Method write: the generic method `Notification.write` (an argument here) updates
the generic model of the record from the response; the result is assigned to the
record. -/
def NotificationApprise.write
    (genericWrite : Notification → NotificationResource → Notification)
    (n : NotificationApprise) (notification : NotificationResource) : NotificationApprise :=
  let genericNotification := n.toNotification
  let genericNotification := genericWrite genericNotification notification
  n.fromNotification genericNotification

/-- Method read: the generic method `Notification.read` (an argument here) applied to
the generic model of the record. -/
def NotificationApprise.read (genericRead : Notification → NotificationResource)
    (n : NotificationApprise) : NotificationResource :=
  genericRead n.toNotification

/-- REST client of the notification endpoints (NotificationApi of
prowlarr.APIClient). -/
structure NotificationApi where
  CreateNotification : NotificationResource → Except RestError NotificationResource
  GetNotificationById : Int → Except RestError NotificationResource
  UpdateNotification : String → NotificationResource → Except RestError NotificationResource
  DeleteNotification : Int → Option RestError

/-- A REST call of the Apprise resource, with its arguments. -/
inductive NotificationCall where
  | create (request : NotificationResource)
  | get (id : Int)
  | update (id : String) (request : NotificationResource)
  | delete (id : Int)
  deriving DecidableEq, Repr

/-- Handler Create of the Apprise resource. `planDiags` and `notification` are what
`req.Plan.Get` returned and decoded. -/
def NotificationAppriseResource.Create
    (genericRead : Notification → NotificationResource)
    (genericWrite : Notification → NotificationResource → Notification)
    (ParseClientError : helpers.Operation → String → RestError → String)
    (r : NotificationApi) (planDiags : Diagnostics) (notification : NotificationApprise)
    (resp : Response NotificationApprise) : Outcome NotificationApprise NotificationCall :=
  let resp := { resp with Diagnostics := resp.Diagnostics.Append planDiags }
  if resp.Diagnostics.HasError then
    { resp := resp, calls := [] }
  else
    let request := notification.read genericRead
    match r.CreateNotification request with
    | .error err =>
      let detail := ParseClientError .Create notificationAppriseResourceName err
      { resp := { resp with Diagnostics := resp.Diagnostics.AddError helpers.ClientError detail }
        calls := [.create request] }
    | .ok response =>
      let notification := notification.write genericWrite response
      { resp := { resp with Diagnostics := resp.Diagnostics.Append [], State := some notification }
        calls := [.create request] }

/-- Handler Read of the Apprise resource. `stateDiags` and `notification` are what
`req.State.Get` returned and decoded. -/
def NotificationAppriseResource.Read
    (genericWrite : Notification → NotificationResource → Notification)
    (ParseClientError : helpers.Operation → String → RestError → String)
    (r : NotificationApi) (stateDiags : Diagnostics) (notification : NotificationApprise)
    (resp : Response NotificationApprise) : Outcome NotificationApprise NotificationCall :=
  let resp := { resp with Diagnostics := resp.Diagnostics.Append stateDiags }
  if resp.Diagnostics.HasError then
    { resp := resp, calls := [] }
  else
    let id := wrapSigned 32 notification.ID.ValueInt64
    match r.GetNotificationById id with
    | .error err =>
      let detail := ParseClientError .Read notificationAppriseResourceName err
      { resp := { resp with Diagnostics := resp.Diagnostics.AddError helpers.ClientError detail }
        calls := [.get id] }
    | .ok response =>
      let notification := notification.write genericWrite response
      { resp := { resp with Diagnostics := resp.Diagnostics.Append [], State := some notification }
        calls := [.get id] }

/-- Handler Update of the Apprise resource. `planDiags` and `notification` are what
`req.Plan.Get` returned and decoded. -/
def NotificationAppriseResource.Update
    (genericRead : Notification → NotificationResource)
    (genericWrite : Notification → NotificationResource → Notification)
    (ParseClientError : helpers.Operation → String → RestError → String)
    (r : NotificationApi) (planDiags : Diagnostics) (notification : NotificationApprise)
    (resp : Response NotificationApprise) : Outcome NotificationApprise NotificationCall :=
  let resp := { resp with Diagnostics := resp.Diagnostics.Append planDiags }
  if resp.Diagnostics.HasError then
    { resp := resp, calls := [] }
  else
    let request := notification.read genericRead
    match r.UpdateNotification (Itoa request.Id) request with
    | .error err =>
      let detail := ParseClientError .Update notificationAppriseResourceName err
      { resp := { resp with Diagnostics := resp.Diagnostics.AddError helpers.ClientError detail }
        calls := [.update (Itoa request.Id) request] }
    | .ok response =>
      let notification := notification.write genericWrite response
      { resp := { resp with Diagnostics := resp.Diagnostics.Append [], State := some notification }
        calls := [.update (Itoa request.Id) request] }

/-- Handler Delete of the Apprise resource. `stateDiags` and `notification` are what
`req.State.Get` returned and decoded. -/
def NotificationAppriseResource.Delete
    (ParseClientError : helpers.Operation → String → RestError → String)
    (r : NotificationApi) (stateDiags : Diagnostics) (notification : NotificationApprise)
    (resp : Response NotificationApprise) : Outcome NotificationApprise NotificationCall :=
  let resp := { resp with Diagnostics := resp.Diagnostics.Append stateDiags }
  if resp.Diagnostics.HasError then
    { resp := resp, calls := [] }
  else
    let id := wrapSigned 32 notification.ID.ValueInt64
    match r.DeleteNotification id with
    | some err =>
      let detail := ParseClientError .Read notificationAppriseResourceName err
      { resp := { resp with Diagnostics := resp.Diagnostics.AddError helpers.ClientError detail }
        calls := [.delete id] }
    | none =>
      { resp := { resp with State := none }
        calls := [.delete id] }

/-! ## Shapes of import identifiers -/

/-- A non-empty run of the digits 0-9. -/
def isDigitRun (cs : List Char) : Bool :=
  !cs.isEmpty && cs.all Char.isDigit

/-- A non-empty run of the digits 0-9, optionally preceded by one sign character. -/
def isSignedDigitRun (s : String) : Bool :=
  match s.toList with
  | [] => false
  | c :: cs => if c == '+' || c == '-' then isDigitRun cs else isDigitRun (c :: cs)

/-- The integer that a run of digits denotes in base 10. -/
def decimalValue (cs : List Char) : Nat :=
  cs.foldl (fun n c => n * 10 + (c.toNat - 48)) 0

/-- The formatting verb `%q` on a string without a character to escape: the string
between double quotes. -/
def quotePlain (s : String) : String :=
  String.singleton (Char.ofNat 34) ++ s ++ String.singleton (Char.ofNat 34)

/-! ## Concrete inputs of the examples -/

/-- The record of the create/update scenario: name "t1", host "localhost", port 9091,
enable false, every other attribute null. -/
def transmissionT1 : DownloadClientTransmission :=
  { DownloadClientTransmission.allNull with
    Name := .known "t1"
    Host := .known "localhost"
    Port := .known 9091
    Enable := .known false }

/-- A record in which every attribute is known. -/
def transmissionKnown : DownloadClientTransmission :=
  { Tags := .known [.known 3, .known 1]
    Name := .known "t1"
    Host := .known "localhost"
    URLBase := .known "/transmission/"
    Username := .known "user"
    Password := .known "secret"
    TvCategory := .known "tv"
    TvDirectory := .known "/data"
    RecentTvPriority := .known 1
    OlderTvPriority := .known 0
    Priority := .known 25
    Port := .known 9091
    ID := .known 7
    AddPaused := .known true
    UseSsl := .known false
    Enable := .known true }

/-- The record `transmissionKnown` with a null name. -/
def transmissionNullName : DownloadClientTransmission :=
  { transmissionKnown with Name := .null }

/-- A REST client whose every call fails with the given error. -/
def failingProwlarr (err : RestError) : Prowlarr :=
  { AddDownloadClientContext := fun _ => .error err
    GetDownloadClientContext := fun _ => .error err
    UpdateDownloadClientContext := fun _ => .error err
    DeleteDownloadClientContext := fun _ => some err }

/-- The error of a call that addresses an id the server no longer has. -/
def notFoundError : RestError := { code := 404, msg := "not found" }

/-- An application client whose every call fails with the given error. -/
def failingApplicationApi (err : RestError) : ApplicationApi :=
  { CreateApplications := fun _ => .error err
    GetApplicationsById := fun _ => .error err
    UpdateApplications := fun _ _ => .error err
    DeleteApplications := fun _ => some err }

/-- A notification client whose every call fails with the given error. -/
def failingNotificationApi (err : RestError) : NotificationApi :=
  { CreateNotification := fun _ => .error err
    GetNotificationById := fun _ => .error err
    UpdateNotification := fun _ _ => .error err
    DeleteNotification := fun _ => some err }

/-- Name of an operation in an error message. -/
def helpers.Operation.name : helpers.Operation → String
  | .Create => "create"
  | .Read => "read"
  | .Update => "update"
  | .Delete => "delete"

/-- Modelled from the spec: the function helpers.ParseClientError is missing from the
source files. The message convention of section 6 of the specification: "Unable to
(operation) (resource type name), got error: (wrapped error)". -/
def specParseClientError (op : helpers.Operation) (name : String) (err : RestError) :
    String :=
  "Unable to " ++ op.name ++ " " ++ name ++ ", got error: " ++ err.msg

/-- A Lidarr record with id 4. -/
def lidarrExample : ApplicationLidarr :=
  { SyncCategories := .known [.known 3010]
    Tags := .known []
    Name := .known "lidarr"
    SyncLevel := .known "addOnly"
    ProwlarrURL := .known "http://localhost:9696"
    BaseURL := .known "http://localhost:8686"
    APIKey := .known "key"
    ID := .known 4 }

/-- An Apprise record with id 5. -/
def appriseExample : NotificationApprise :=
  { Tags := .known []
    FieldTags := .known [.known "warning"]
    ConfigurationKey := .known "key"
    StatelessURLs := .null
    BaseURL := .known "http://localhost:8000"
    AuthUsername := .known "user"
    AuthPassword := .known "secret"
    Name := .known "apprise"
    ID := .known 5
    IncludeHealthWarnings := .known false
    OnApplicationUpdate := .known false
    OnHealthIssue := .known true }

/-! ## Configure of the Transmission resource -/

/-- Resource of the Transmission download client: the REST client it holds, which is
nil (`none`) until Configure sets it. -/
structure DownloadClientTransmissionResource where
  client : Option Prowlarr

/-- Dynamic value of the interface `req.ProviderData`: the nil interface, a pointer to
prowlarr.Prowlarr (which may be a nil pointer), or a value of another type, with the
type name that the verb `%T` prints. -/
inductive ProviderData where
  | nil
  | prowlarr (client : Option Prowlarr)
  | other (typeName : String)

/-- Response of Configure (resource.ConfigureResponse): the diagnostics. -/
structure ConfigureResponse where
  Diagnostics : Diagnostics
  deriving DecidableEq, Repr

/-- Handler Configure: the resource and the response it leaves. -/
def DownloadClientTransmissionResource.Configure (r : DownloadClientTransmissionResource)
    (providerData : ProviderData) (resp : ConfigureResponse) :
    DownloadClientTransmissionResource × ConfigureResponse :=
  match providerData with
  | .nil => (r, resp)
  | .other typeName =>
    let detail := "Expected *prowlarr.Prowlarr, got: " ++ typeName ++
      ". Please report this issue to the provider developers."
    (r, { resp with
      Diagnostics := resp.Diagnostics.AddError tools.UnexpectedResourceConfigureType detail })
  | .prowlarr client => ({ r with client := client }, resp)

/-! ## Further concrete inputs of the examples -/

/-- A REST client whose every call succeeds; add, get and update answer the given
response. -/
def acceptingProwlarr (response : DownloadClientOutput) : Prowlarr :=
  { AddDownloadClientContext := fun _ => .ok response
    GetDownloadClientContext := fun _ => .ok response
    UpdateDownloadClientContext := fun _ => .ok response
    DeleteDownloadClientContext := fun _ => none }

/-- An application client whose every call succeeds; create, get and update answer the
given response. -/
def acceptingApplicationApi (response : ApplicationResource) : ApplicationApi :=
  { CreateApplications := fun _ => .ok response
    GetApplicationsById := fun _ => .ok response
    UpdateApplications := fun _ _ => .ok response
    DeleteApplications := fun _ => none }

/-- A wire body of the application endpoints, with id 4. -/
def lidarrWire : ApplicationResource :=
  { Id := 4
    Name := "lidarr"
    SyncLevel := "addOnly"
    Implementation := "Lidarr"
    ConfigContract := "LidarrSettings"
    Tags := []
    Fields := [{ Name := "baseUrl", Value := .str "http://localhost:8686" }] }

/-- A generic application read that answers `lidarrWire` and adds no diagnostic. -/
def plainApplicationRead (_ : Application) (diags : Diagnostics) :
    ApplicationResource × Diagnostics :=
  (lidarrWire, diags)

/-- A generic application write that takes the id and the name of the response and
reports a coercion failure of the field list as an error diagnostic. -/
def mismatchApplicationWrite (g : Application) (response : ApplicationResource)
    (diags : Diagnostics) : Application × Diagnostics :=
  ({ g with ID := .known response.Id, Name := .known response.Name },
    diags.AddError "Field Type Mismatch" "syncCategories")

/-- A server response for Transmission whose field list holds the value 2 for
recentTvPriority. -/
def responsePriorityTwo : DownloadClientOutput :=
  { Enable := true
    Priority := 25
    ID := 7
    ConfigContract := "TransmissionSettings"
    Implementation := "Transmission"
    Name := "t1"
    Protocol := "torrent"
    Tags := some []
    Fields :=
      [ { Name := "host", Value := .str "localhost" },
        { Name := "recentTvPriority", Value := .int 2 } ] }

/-- A wire body of the notification endpoints, with id 5. -/
def appriseWire : NotificationResource :=
  { Id := 5
    Name := "apprise"
    Implementation := "Apprise"
    ConfigContract := "AppriseSettings"
    Tags := []
    Fields := [] }

/-- The generic download client model that method write of Transmission builds from the
envelope of a response before the field list is decoded; every field-backed attribute
is at its zero value. -/
def envelopeModel (response : DownloadClientOutput) : DownloadClient :=
  { Enable := .known response.Enable
    Priority := .known response.Priority
    ID := .known response.ID
    Name := .known response.Name
    Tags := tagsValueFrom response.Tags (.known []) }

/-- A server response for Transmission after an update of the port: the field list
holds the host, the port 9092 and the recent TV priority 1, and omits the other
fields. -/
def responsePort9092 : DownloadClientOutput :=
  { Enable := true
    Priority := 25
    ID := 7
    ConfigContract := "TransmissionSettings"
    Implementation := "Transmission"
    Name := "t1"
    Protocol := "torrent"
    Tags := some []
    Fields :=
      [ { Name := "host", Value := .str "localhost" },
        { Name := "port", Value := .int 9092 },
        { Name := "recentTvPriority", Value := .int 1 } ] }

/-- A record as planned before creation: the id is unknown, the name is "old" and the
priority is 1. -/
def transmissionPlanned : DownloadClientTransmission :=
  { transmissionKnown with ID := .unknown, Name := .known "old", Priority := .known 1 }

/-! ## Theorems -/

/-- C1. Constant stamping (Transmission): whatever the record holds and whatever the
field codec is, the request returned by read carries the implementation
"Transmission", the config contract "TransmissionSettings" and the protocol
"torrent". -/
theorem transmission_read_stamps_constants
    (readFields : DownloadClient → List FieldInput) (d : DownloadClientTransmission) :
    (d.read readFields).Implementation = "Transmission" ∧
    (d.read readFields).ConfigContract = "TransmissionSettings" ∧
    (d.read readFields).Protocol = "torrent" :=
  ⟨rfl, rfl, rfl⟩

/-! ### Helper lemmas -/

theorem write_eq_allNull_write
    (writeFields : DownloadClient → List FieldOutput → DownloadClient)
    (d : DownloadClientTransmission) (response : DownloadClientOutput) :
    d.write writeFields response =
      DownloadClientTransmission.allNull.write writeFields response :=
  rfl

theorem fromDownloadClient_toDownloadClient (d e : DownloadClientTransmission) :
    e.fromDownloadClient d.toDownloadClient = d := by
  cases d
  rfl

theorem knownInts_map_known (xs : List Int) :
    knownInts (xs.map Int64Value.known) = some xs := by
  induction xs with
  | nil => rfl
  | cons x xs ih => simp [knownInts, Int64Value.known?, ih]

theorem tagsValueFrom_tagsValueAs (tags target : SetValue Int64Value)
    (h : tags = .null ∨ ∃ xs : List Int, xs.Nodup ∧ tags = .known (xs.map Int64Value.known)) :
    tagsValueFrom (tagsValueAs tags) target = tags := by
  rcases h with h | ⟨xs, hnd, h⟩
  · subst h
    rfl
  · subst h
    simp [tagsValueAs, tagsValueFrom, knownInts_map_known, hnd]

/-- C2. Full overwrite on write (Transmission): two records written from the same
response are equal, whatever they held before; the written record is the image of the
generic model that the codec fills starting from null field attributes, so when the
codec assigns nothing the field attributes end null; and two Read runs on states that
agree on the id, for the same server response, store the same record, the one written
from the response. -/
theorem transmission_write_full_overwrite
    (writeFields : DownloadClient → List FieldOutput → DownloadClient)
    (r : Prowlarr) (stateDiags diags0 : Diagnostics)
    (s1 s2 : Option DownloadClientTransmission)
    (d1 d2 : DownloadClientTransmission) (response served : DownloadClientOutput)
    (hID : d1.ID = d2.ID)
    (hNoError : (diags0.Append stateDiags).HasError = false)
    (hGet : r.GetDownloadClientContext d1.ID.ValueInt64 = .ok served) :
    d1.write writeFields response = d2.write writeFields response ∧
    d1.write writeFields response =
      DownloadClientTransmission.allNull.fromDownloadClient
        (writeFields
          { Enable := .known response.Enable
            Priority := .known response.Priority
            ID := .known response.ID
            Name := .known response.Name
            Tags := tagsValueFrom response.Tags (.known []) }
          response.Fields) ∧
    (writeFields
        { Enable := .known response.Enable
          Priority := .known response.Priority
          ID := .known response.ID
          Name := .known response.Name
          Tags := tagsValueFrom response.Tags (.known []) }
        response.Fields =
        { Enable := .known response.Enable
          Priority := .known response.Priority
          ID := .known response.ID
          Name := .known response.Name
          Tags := tagsValueFrom response.Tags (.known []) } →
      d1.write writeFields response =
        { DownloadClientTransmission.allNull with
          Enable := .known response.Enable
          Priority := .known response.Priority
          ID := .known response.ID
          Name := .known response.Name
          Tags := tagsValueFrom response.Tags (.known []) }) ∧
    DownloadClientTransmissionResource.Read writeFields r stateDiags d1
        { Diagnostics := diags0, State := s1 } =
      DownloadClientTransmissionResource.Read writeFields r stateDiags d2
        { Diagnostics := diags0, State := s2 } ∧
    (DownloadClientTransmissionResource.Read writeFields r stateDiags d1
        { Diagnostics := diags0, State := s1 }).resp.State =
      some (DownloadClientTransmission.allNull.write writeFields served) := by
  have hGet2 : r.GetDownloadClientContext d2.ID.ValueInt64 = .ok served := by
    rw [← hID]
    exact hGet
  refine ⟨rfl, rfl, ?_, ?_, ?_⟩
  · intro h
    show DownloadClientTransmission.allNull.fromDownloadClient _ = _
    rw [h]
    rfl
  · simp only [DownloadClientTransmissionResource.Read, hNoError, hGet, hGet2,
      write_eq_allNull_write writeFields d1, write_eq_allNull_write writeFields d2]
    rw [hID]
    rfl
  · simp only [DownloadClientTransmissionResource.Read, hNoError, hGet,
      write_eq_allNull_write writeFields d1]
    rfl

/-- Witness of C2: a Read on the state that holds only the imported id 7 and a Read on
the fully populated state with id 7 store the same record. -/
theorem transmission_write_full_overwrite_witness :
    DownloadClientTransmissionResource.Read specWriteFields
        { AddDownloadClientContext := fun q => .ok (echoResponse q)
          GetDownloadClientContext := fun _ =>
            .ok (echoResponse (transmissionKnown.read specReadFields))
          UpdateDownloadClientContext := fun q => .ok (echoResponse q)
          DeleteDownloadClientContext := fun _ => none }
        [] { DownloadClientTransmission.allNull with ID := .known 7 }
        { Diagnostics := [], State := setAttributeID none 7 } =
      DownloadClientTransmissionResource.Read specWriteFields
        { AddDownloadClientContext := fun q => .ok (echoResponse q)
          GetDownloadClientContext := fun _ =>
            .ok (echoResponse (transmissionKnown.read specReadFields))
          UpdateDownloadClientContext := fun q => .ok (echoResponse q)
          DeleteDownloadClientContext := fun _ => none }
        [] transmissionKnown { Diagnostics := [], State := some transmissionKnown } :=
  (transmission_write_full_overwrite specWriteFields _ [] []
    (setAttributeID none 7) (some transmissionKnown)
    { DownloadClientTransmission.allNull with ID := .known 7 } transmissionKnown
    (echoResponse (transmissionKnown.read specReadFields))
    (echoResponse (transmissionKnown.read specReadFields)) rfl rfl rfl).2.2.2.1

/-- C3, counterexample. The record `transmissionNullName` has every attribute known
except a null name; written from the response that carries the values of its own
request, its name comes back as the known empty string, while every other attribute
is restored. -/
theorem transmission_round_trip_null_name_counterexample :
    transmissionNullName.Name = .null ∧
    (transmissionNullName.write specWriteFields
      (echoResponse (transmissionNullName.read specReadFields))).Name = .known "" ∧
    transmissionNullName.write specWriteFields
      (echoResponse (transmissionNullName.read specReadFields)) =
      { transmissionNullName with Name := .known "" } ∧
    transmissionNullName.write specWriteFields
      (echoResponse (transmissionNullName.read specReadFields)) ≠ transmissionNullName := by
  decide

/-- C3, amended. Round trip (Transmission): when the id, name, enable flag and priority
of a record are known, its tag set is null or a known set of distinct known integers,
and the codec decodes the encoded field list of the record back into its generic
model, writing the response that carries the values of the request of the record
gives the record back. -/
theorem transmission_round_trip_known
    (readFields : DownloadClient → List FieldInput)
    (writeFields : DownloadClient → List FieldOutput → DownloadClient)
    (d : DownloadClientTransmission) (name : String) (enable : Bool) (priority id : Int)
    (hName : d.Name = .known name) (hEnable : d.Enable = .known enable)
    (hPriority : d.Priority = .known priority) (hID : d.ID = .known id)
    (hTags : d.Tags = .null ∨
      ∃ xs : List Int, xs.Nodup ∧ d.Tags = .known (xs.map Int64Value.known))
    (hCodec :
      writeFields
        { Enable := d.Enable, Priority := d.Priority, ID := d.ID, Name := d.Name,
          Tags := d.Tags }
        ((readFields d.toDownloadClient).map (fun f => { Name := f.Name, Value := f.Value }))
      = d.toDownloadClient) :
    d.write writeFields (echoResponse (d.read readFields)) = d := by
  have hT := tagsValueFrom_tagsValueAs d.Tags (.known []) hTags
  have hg :
      ({ Enable := .known (echoResponse (d.read readFields)).Enable
         Priority := .known (echoResponse (d.read readFields)).Priority
         ID := .known (echoResponse (d.read readFields)).ID
         Name := .known (echoResponse (d.read readFields)).Name
         Tags := tagsValueFrom (echoResponse (d.read readFields)).Tags (.known []) } :
        DownloadClient) =
      { Enable := d.Enable, Priority := d.Priority, ID := d.ID, Name := d.Name,
        Tags := d.Tags } := by
    simp only [echoResponse, DownloadClientTransmission.read, hName, hEnable, hPriority, hID,
      StringValue.ValueString, Int64Value.ValueInt64, BoolValue.ValueBool, hT]
  show d.fromDownloadClient (writeFields _ _) = d
  rw [hg]
  show d.fromDownloadClient (writeFields _
    ((readFields d.toDownloadClient).map (fun f => { Name := f.Name, Value := f.Value }))) = d
  rw [hCodec]
  exact fromDownloadClient_toDownloadClient d d

/-- Witness of C3 (amended): the fully known record `transmissionKnown` with the codec
modelled from the specification. -/
theorem transmission_round_trip_known_witness :
    transmissionKnown.write specWriteFields
      (echoResponse (transmissionKnown.read specReadFields)) = transmissionKnown :=
  transmission_round_trip_known specReadFields specWriteFields transmissionKnown
    "t1" true 25 7 rfl rfl rfl rfl
    (Or.inr ⟨[3, 1], by decide, rfl⟩) (by decide)

theorem not_mem_of_HasError_false (diags : Diagnostics) (summary detail : String)
    (h : diags.HasError = false) :
    ({ severity := Severity.error, summary := summary, detail := detail } : Diagnostic)
      ∉ diags := by
  intro hmem
  have : diags.HasError = true := by
    unfold Diagnostics.HasError
    rw [List.any_eq_true]
    exact ⟨_, hmem, by simp⟩
  rw [h] at this
  exact Bool.noConfusion this

theorem AddError_of_HasError_false (diags : Diagnostics) (summary detail : String)
    (h : diags.HasError = false) :
    diags.AddError summary detail =
      diags ++ [{ severity := Severity.error, summary := summary, detail := detail }] := by
  have hmem := not_mem_of_HasError_false diags summary detail h
  simp [Diagnostics.AddError, Diagnostics.Append, hmem]

theorem errorCount_append_error (diags : Diagnostics) (summary detail : String) :
    Diagnostics.errorCount
      (diags ++ [{ severity := Severity.error, summary := summary, detail := detail }]) =
      diags.errorCount + 1 := by
  simp [Diagnostics.errorCount, List.countP_append]

/-- C4, counterexample. The Transmission Read handler, run on a state that holds a
record while the get call fails because the id no longer exists (status 404), keeps
the record in the state and reports an error diagnostic. -/
theorem read_not_found_counterexample :
    notFoundError.isNotFound = true ∧
    (DownloadClientTransmissionResource.Read specWriteFields (failingProwlarr notFoundError)
      [] transmissionKnown { Diagnostics := [], State := some transmissionKnown }) =
      { resp :=
          { Diagnostics :=
              [{ severity := Severity.error
                 summary := "Client Error"
                 detail := "Unable to read download_client_transmission, got error: not found" }]
            State := some transmissionKnown }
        calls := [.get 7] } := by
  decide

/-- C4, amended. Failed get in Read (Transmission, Lidarr, Apprise): when the get call
fails, whatever the error is and also when the id no longer exists, the handler makes
that one call, appends one error diagnostic with the summary ClientError, and leaves
the state as it was on entry; it does not remove the resource. -/
theorem read_failure_keeps_state
    (writeFields : DownloadClient → List FieldOutput → DownloadClient)
    (applicationWrite :
      Application → ApplicationResource → Diagnostics → Application × Diagnostics)
    (notificationWrite : Notification → NotificationResource → Notification)
    (ParseClientError : helpers.Operation → String → RestError → String)
    (r : Prowlarr) (ra : ApplicationApi) (rn : NotificationApi)
    (stateDiags : Diagnostics)
    (client : DownloadClientTransmission) (application : ApplicationLidarr)
    (notification : NotificationApprise)
    (respT : Response DownloadClientTransmission) (respA : Response ApplicationLidarr)
    (respN : Response NotificationApprise) (err : RestError)
    (hT : (respT.Diagnostics.Append stateDiags).HasError = false)
    (hA : (respA.Diagnostics.Append stateDiags).HasError = false)
    (hN : (respN.Diagnostics.Append stateDiags).HasError = false)
    (hGetT : r.GetDownloadClientContext client.ID.ValueInt64 = .error err)
    (hGetA : ra.GetApplicationsById (wrapSigned 32 application.ID.ValueInt64) = .error err)
    (hGetN : rn.GetNotificationById (wrapSigned 32 notification.ID.ValueInt64) = .error err) :
    DownloadClientTransmissionResource.Read writeFields r stateDiags client respT =
      { resp :=
          { Diagnostics := respT.Diagnostics.Append stateDiags ++
              [{ severity := Severity.error
                 summary := tools.ClientError
                 detail := "Unable to read download_client_transmission, got error: "
                   ++ err.msg }]
            State := respT.State }
        calls := [.get client.ID.ValueInt64] } ∧
    ApplicationLidarrResource.Read applicationWrite ParseClientError ra stateDiags
        application respA =
      { resp :=
          { Diagnostics := respA.Diagnostics.Append stateDiags ++
              [{ severity := Severity.error
                 summary := helpers.ClientError
                 detail := ParseClientError .Read "application_lidarr" err }]
            State := respA.State }
        calls := [.get (wrapSigned 32 application.ID.ValueInt64)] } ∧
    NotificationAppriseResource.Read notificationWrite ParseClientError rn stateDiags
        notification respN =
      { resp :=
          { Diagnostics := respN.Diagnostics.Append stateDiags ++
              [{ severity := Severity.error
                 summary := helpers.ClientError
                 detail := ParseClientError .Read "notification_apprise" err }]
            State := respN.State }
        calls := [.get (wrapSigned 32 notification.ID.ValueInt64)] } := by
  refine ⟨?_, ?_, ?_⟩
  · simp only [DownloadClientTransmissionResource.Read, hT, hGetT,
      AddError_of_HasError_false _ _ _ hT]
    rfl
  · simp only [ApplicationLidarrResource.Read, hA, hGetA,
      AddError_of_HasError_false _ _ _ hA]
    rfl
  · simp only [NotificationAppriseResource.Read, hN, hGetN,
      AddError_of_HasError_false _ _ _ hN]
    rfl

/-- Witness of C4 (amended): the three Read handlers, run with clients whose get call
answers 404, keep the stored record and report one error. -/
theorem read_failure_keeps_state_witness :
    DownloadClientTransmissionResource.Read specWriteFields (failingProwlarr notFoundError)
        [] transmissionKnown { Diagnostics := [], State := some transmissionKnown } =
      { resp :=
          { Diagnostics := Diagnostics.Append [] [] ++
              [{ severity := Severity.error
                 summary := tools.ClientError
                 detail := "Unable to read download_client_transmission, got error: "
                   ++ notFoundError.msg }]
            State := some transmissionKnown }
        calls := [.get transmissionKnown.ID.ValueInt64] } ∧
    ApplicationLidarrResource.Read (fun g _ ds => (g, ds)) specParseClientError
        (failingApplicationApi notFoundError) [] lidarrExample
        { Diagnostics := [], State := some lidarrExample } =
      { resp :=
          { Diagnostics := Diagnostics.Append [] [] ++
              [{ severity := Severity.error
                 summary := helpers.ClientError
                 detail := specParseClientError .Read "application_lidarr" notFoundError }]
            State := some lidarrExample }
        calls := [.get (wrapSigned 32 lidarrExample.ID.ValueInt64)] } ∧
    NotificationAppriseResource.Read (fun g _ => g) specParseClientError
        (failingNotificationApi notFoundError) [] appriseExample
        { Diagnostics := [], State := some appriseExample } =
      { resp :=
          { Diagnostics := Diagnostics.Append [] [] ++
              [{ severity := Severity.error
                 summary := helpers.ClientError
                 detail := specParseClientError .Read "notification_apprise" notFoundError }]
            State := some appriseExample }
        calls := [.get (wrapSigned 32 appriseExample.ID.ValueInt64)] } :=
  read_failure_keeps_state specWriteFields (fun g _ ds => (g, ds)) (fun g _ => g)
    specParseClientError (failingProwlarr notFoundError) (failingApplicationApi notFoundError)
    (failingNotificationApi notFoundError) [] transmissionKnown lidarrExample appriseExample
    { Diagnostics := [], State := some transmissionKnown }
    { Diagnostics := [], State := some lidarrExample }
    { Diagnostics := [], State := some appriseExample }
    notFoundError rfl rfl rfl rfl rfl rfl

/-- C5. Atomicity on REST failure (Transmission): for each of Create, Read, Update and
Delete on its own, when the REST call of the handler returns an error, the handler
appends exactly one diagnostic, an error with the summary ClientError, so that the
number of errors grows by one, and the state of the response is the state on entry. -/
theorem transmission_rest_failure_atomic
    (readFields : DownloadClient → List FieldInput)
    (writeFields : DownloadClient → List FieldOutput → DownloadClient)
    (r : Prowlarr) (diags : Diagnostics) (client : DownloadClientTransmission)
    (resp : Response DownloadClientTransmission)
    (hNoError : (resp.Diagnostics.Append diags).HasError = false) :
    (∀ e : RestError, r.AddDownloadClientContext (client.read readFields) = .error e →
      (∃ detail,
        (DownloadClientTransmissionResource.Create readFields writeFields r diags client
          resp).resp.Diagnostics =
          resp.Diagnostics.Append diags ++
            [{ severity := Severity.error, summary := tools.ClientError
               detail := detail }]) ∧
      (DownloadClientTransmissionResource.Create readFields writeFields r diags client
          resp).resp.Diagnostics.errorCount =
        (resp.Diagnostics.Append diags).errorCount + 1 ∧
      (DownloadClientTransmissionResource.Create readFields writeFields r diags client
          resp).resp.State = resp.State) ∧
    (∀ e : RestError, r.GetDownloadClientContext client.ID.ValueInt64 = .error e →
      (∃ detail,
        (DownloadClientTransmissionResource.Read writeFields r diags client resp).resp.Diagnostics =
          resp.Diagnostics.Append diags ++
            [{ severity := Severity.error, summary := tools.ClientError
               detail := detail }]) ∧
      (DownloadClientTransmissionResource.Read writeFields r diags client resp).resp.Diagnostics.errorCount =
        (resp.Diagnostics.Append diags).errorCount + 1 ∧
      (DownloadClientTransmissionResource.Read writeFields r diags client resp).resp.State = resp.State) ∧
    (∀ e : RestError, r.UpdateDownloadClientContext (client.read readFields) = .error e →
      (∃ detail,
        (DownloadClientTransmissionResource.Update readFields writeFields r diags client
          resp).resp.Diagnostics =
          resp.Diagnostics.Append diags ++
            [{ severity := Severity.error, summary := tools.ClientError
               detail := detail }]) ∧
      (DownloadClientTransmissionResource.Update readFields writeFields r diags client
          resp).resp.Diagnostics.errorCount =
        (resp.Diagnostics.Append diags).errorCount + 1 ∧
      (DownloadClientTransmissionResource.Update readFields writeFields r diags client
          resp).resp.State = resp.State) ∧
    (∀ e : RestError, r.DeleteDownloadClientContext client.ID.ValueInt64 = some e →
      (∃ detail,
        (DownloadClientTransmissionResource.Delete r diags client resp).resp.Diagnostics =
          resp.Diagnostics.Append diags ++
            [{ severity := Severity.error, summary := tools.ClientError
               detail := detail }]) ∧
      (DownloadClientTransmissionResource.Delete r diags client resp).resp.Diagnostics.errorCount =
        (resp.Diagnostics.Append diags).errorCount + 1 ∧
      (DownloadClientTransmissionResource.Delete r diags client resp).resp.State = resp.State) := by
  refine ⟨?_, ?_, ?_, ?_⟩
  · intro e h
    have hEq : DownloadClientTransmissionResource.Create readFields writeFields r diags client resp =
        { resp :=
            { Diagnostics := resp.Diagnostics.Append diags ++
                [{ severity := Severity.error, summary := tools.ClientError
                   detail := "Unable to create download_client_transmission, got error: "
                     ++ e.msg }]
              State := resp.State }
          calls := [.add (client.read readFields)] } := by
      simp only [DownloadClientTransmissionResource.Create, hNoError, h,
        AddError_of_HasError_false _ _ _ hNoError]
      rfl
    rw [hEq]
    exact ⟨⟨_, rfl⟩, errorCount_append_error _ _ _, rfl⟩
  · intro e h
    have hEq : DownloadClientTransmissionResource.Read writeFields r diags client resp =
        { resp :=
            { Diagnostics := resp.Diagnostics.Append diags ++
                [{ severity := Severity.error, summary := tools.ClientError
                   detail := "Unable to read download_client_transmission, got error: "
                     ++ e.msg }]
              State := resp.State }
          calls := [.get client.ID.ValueInt64] } := by
      simp only [DownloadClientTransmissionResource.Read, hNoError, h,
        AddError_of_HasError_false _ _ _ hNoError]
      rfl
    rw [hEq]
    exact ⟨⟨_, rfl⟩, errorCount_append_error _ _ _, rfl⟩
  · intro e h
    have hEq : DownloadClientTransmissionResource.Update readFields writeFields r diags client resp =
        { resp :=
            { Diagnostics := resp.Diagnostics.Append diags ++
                [{ severity := Severity.error, summary := tools.ClientError
                   detail := "Unable to update download_client_transmission, got error: "
                     ++ e.msg }]
              State := resp.State }
          calls := [.update (client.read readFields)] } := by
      simp only [DownloadClientTransmissionResource.Update, hNoError, h,
        AddError_of_HasError_false _ _ _ hNoError]
      rfl
    rw [hEq]
    exact ⟨⟨_, rfl⟩, errorCount_append_error _ _ _, rfl⟩
  · intro e h
    have hEq : DownloadClientTransmissionResource.Delete r diags client resp =
        { resp :=
            { Diagnostics := resp.Diagnostics.Append diags ++
                [{ severity := Severity.error, summary := tools.ClientError
                   detail := "Unable to read download_client_transmission, got error: "
                     ++ e.msg }]
              State := resp.State }
          calls := [.delete client.ID.ValueInt64] } := by
      simp only [DownloadClientTransmissionResource.Delete, hNoError, h,
        AddError_of_HasError_false _ _ _ hNoError]
      rfl
    rw [hEq]
    exact ⟨⟨_, rfl⟩, errorCount_append_error _ _ _, rfl⟩

/-- Witness of C5: an Update that fails on a client whose get call still succeeds, and
a Create and a Delete on a client whose every call is refused as unauthorized. -/
theorem transmission_rest_failure_atomic_witness :
    (DownloadClientTransmissionResource.Update specReadFields specWriteFields
      { acceptingProwlarr responsePort9092 with
        UpdateDownloadClientContext := fun _ => .error { code := 401, msg := "Unauthorized" } }
      [] transmissionKnown
      { Diagnostics := [], State := some transmissionKnown }).resp.State =
      some transmissionKnown ∧
    (DownloadClientTransmissionResource.Update specReadFields specWriteFields
      { acceptingProwlarr responsePort9092 with
        UpdateDownloadClientContext := fun _ => .error { code := 401, msg := "Unauthorized" } }
      [] transmissionKnown
      { Diagnostics := [], State := some transmissionKnown }).resp.Diagnostics.errorCount =
      Diagnostics.errorCount (Diagnostics.Append [] []) + 1 ∧
    (DownloadClientTransmissionResource.Create specReadFields specWriteFields
      (failingProwlarr { code := 401, msg := "Unauthorized" }) [] transmissionKnown
      { Diagnostics := [], State := none }).resp.State = none ∧
    (DownloadClientTransmissionResource.Delete
      (failingProwlarr { code := 401, msg := "Unauthorized" }) [] transmissionKnown
      { Diagnostics := [], State := some transmissionKnown }).resp.State =
      some transmissionKnown :=
  have hU := (transmission_rest_failure_atomic specReadFields specWriteFields
    { acceptingProwlarr responsePort9092 with
      UpdateDownloadClientContext := fun _ => .error { code := 401, msg := "Unauthorized" } }
    [] transmissionKnown { Diagnostics := [], State := some transmissionKnown } rfl).2.2.1
    { code := 401, msg := "Unauthorized" } rfl
  have hC := (transmission_rest_failure_atomic specReadFields specWriteFields
    (failingProwlarr { code := 401, msg := "Unauthorized" }) [] transmissionKnown
    { Diagnostics := [], State := none } rfl).1 { code := 401, msg := "Unauthorized" } rfl
  have hD := (transmission_rest_failure_atomic specReadFields specWriteFields
    (failingProwlarr { code := 401, msg := "Unauthorized" }) [] transmissionKnown
    { Diagnostics := [], State := some transmissionKnown } rfl).2.2.2
    { code := 401, msg := "Unauthorized" } rfl
  ⟨hU.2.2, hU.2.1, hC.2.2, hD.2.2⟩

/-- C6, evaluation at the failing input. With a client whose every call fails with the
error text "boom", the details reported by Create, Read and Update name their own
operation, and the detail reported by Delete names the operation read. -/
theorem transmission_delete_error_names_read :
    (DownloadClientTransmissionResource.Create specReadFields specWriteFields
      (failingProwlarr { code := 500, msg := "boom" }) [] transmissionKnown
      { Diagnostics := [], State := none }).resp.Diagnostics =
      [{ severity := Severity.error, summary := "Client Error"
         detail := "Unable to create download_client_transmission, got error: boom" }] ∧
    (DownloadClientTransmissionResource.Read specWriteFields
      (failingProwlarr { code := 500, msg := "boom" }) [] transmissionKnown
      { Diagnostics := [], State := some transmissionKnown }).resp.Diagnostics =
      [{ severity := Severity.error, summary := "Client Error"
         detail := "Unable to read download_client_transmission, got error: boom" }] ∧
    (DownloadClientTransmissionResource.Update specReadFields specWriteFields
      (failingProwlarr { code := 500, msg := "boom" }) [] transmissionKnown
      { Diagnostics := [], State := some transmissionKnown }).resp.Diagnostics =
      [{ severity := Severity.error, summary := "Client Error"
         detail := "Unable to update download_client_transmission, got error: boom" }] ∧
    (DownloadClientTransmissionResource.Delete
      (failingProwlarr { code := 500, msg := "boom" }) [] transmissionKnown
      { Diagnostics := [], State := some transmissionKnown }).resp.Diagnostics =
      [{ severity := Severity.error, summary := "Client Error"
         detail := "Unable to read download_client_transmission, got error: boom" }] := by
  decide

theorem parseDigits_error (cs : List Char) (n : Nat)
    (h : cs.all Char.isDigit = false) : parseDigits cs n = .error .ErrSyntax := by
  induction cs generalizing n with
  | nil => simp at h
  | cons c cs ih =>
    unfold parseDigits
    by_cases hc : c.isDigit = true
    · simp only [hc, if_true]
      apply ih
      simpa [List.all_cons, hc] using h
    · simp [hc]

theorem parseDigits_ok (cs : List Char) (n : Nat)
    (h : cs.all Char.isDigit = true) :
    parseDigits cs n = .ok (cs.foldl (fun n c => n * 10 + (c.toNat - 48)) n) := by
  induction cs generalizing n with
  | nil => rfl
  | cons c cs ih =>
    rw [List.all_cons, Bool.and_eq_true] at h
    unfold parseDigits
    simp only [h.1, if_true, List.foldl_cons]
    exact ih _ h.2

theorem ParseUint_error (cs : List Char) (h : isDigitRun cs = false) :
    ParseUint cs = .error .ErrSyntax := by
  unfold ParseUint
  by_cases he : cs.isEmpty = true
  · simp [he]
  · have hall : cs.all Char.isDigit = false := by
      unfold isDigitRun at h
      simpa [he] using h
    simp only [he]
    exact parseDigits_error cs 0 hall

theorem Atoi_error_of_not_signed (s : String) (h : isSignedDigitRun s = false) :
    ∃ e, Atoi s = .error e := by
  unfold Atoi
  unfold isSignedDigitRun at h
  cases hs : s.toList with
  | nil => exact ⟨_, rfl⟩
  | cons c cs =>
    rw [hs] at h
    have hd : isDigitRun (if (c == '+' || c == '-') = true then cs else c :: cs) = false := by
      by_cases hc : (c == '+' || c == '-') = true
      · simpa [hc] using h
      · simpa [hc] using h
    simp only [ParseUint_error _ hd]
    exact ⟨_, rfl⟩

theorem not_sign_of_isDigit (c : Char) (h : c.isDigit = true) :
    (c == '+' || c == '-') = false := by
  by_cases h1 : c = '+'
  · subst h1
    exact absurd h (by decide)
  · by_cases h2 : c = '-'
    · subst h2
      exact absurd h (by decide)
    · simp [h1, h2]

theorem Atoi_of_digit_run (s : String) (h : isDigitRun s.toList = true)
    (hfit : decimalValue s.toList < 2 ^ 63) :
    Atoi s = .ok (decimalValue s.toList : Int) := by
  unfold Atoi
  cases hs : s.toList with
  | nil => rw [hs] at h; exact absurd h (by decide)
  | cons c cs =>
    rw [hs] at h hfit
    have hall : (c :: cs).all Char.isDigit = true := by
      unfold isDigitRun at h
      rw [Bool.and_eq_true] at h
      exact h.2
    have hc : c.isDigit = true := by
      rw [List.all_cons, Bool.and_eq_true] at hall
      exact hall.1
    have hsign := not_sign_of_isDigit c hc
    have hneg : (c == '-') = false := by
      rw [Bool.or_eq_false_iff] at hsign
      exact hsign.2
    have hP : ParseUint (c :: cs) = .ok (decimalValue (c :: cs)) := by
      unfold ParseUint
      simp only [List.isEmpty_cons]
      exact parseDigits_ok (c :: cs) 0 hall
    have hlt : ¬ (decimalValue (c :: cs) ≥ 2 ^ (intSize - 1)) := by
      have : (2 : Nat) ^ (intSize - 1) = 2 ^ 63 := by decide
      omega
    have hplus : c ≠ '+' := by
      intro hp
      subst hp
      exact absurd hc (by decide)
    have hminus : c ≠ '-' := by
      intro hm
      subst hm
      exact absurd hc (by decide)
    simp [hplus, hminus, hP, hlt]

/-- C7, counterexample. The identifier "-5" is not a run of digits, yet ImportState
reports no error and sets the id to -5; the same holds for "+5" with the id 5. -/
theorem import_signed_identifier_counterexample :
    isDigitRun "-5".toList = false ∧
    DownloadClientTransmissionResource.ImportState quotePlain "-5"
        { Diagnostics := [], State := none } =
      { resp :=
          { Diagnostics := []
            State := some { DownloadClientTransmission.allNull with ID := .known (-5) } }
        calls := [] } ∧
    isDigitRun "+5".toList = false ∧
    DownloadClientTransmissionResource.ImportState quotePlain "+5"
        { Diagnostics := [], State := none } =
      { resp :=
          { Diagnostics := []
            State := some { DownloadClientTransmission.allNull with ID := .known 5 } }
        calls := [] } := by
  decide

/-- C7, amended. Import rejects malformed identifiers (Transmission): for every
identifier that is not a non-empty run of digits optionally preceded by one sign,
ImportState appends one error diagnostic with the summary UnexpectedImportIdentifier
whose detail quotes the identifier, leaves the state as it was and makes no REST
call. -/
theorem import_rejects_malformed (quote : String → String) (s : String)
    (resp : Response DownloadClientTransmission)
    (hs : isSignedDigitRun s = false) (hNoError : resp.Diagnostics.HasError = false) :
    DownloadClientTransmissionResource.ImportState quote s resp =
      { resp :=
          { Diagnostics := resp.Diagnostics ++
              [{ severity := Severity.error
                 summary := tools.UnexpectedImportIdentifier
                 detail := "Expected import identifier with format: ID. Got: " ++ quote s }]
            State := resp.State }
        calls := [] } := by
  obtain ⟨e, he⟩ := Atoi_error_of_not_signed s hs
  simp only [DownloadClientTransmissionResource.ImportState, he,
    AddError_of_HasError_false _ _ _ hNoError]

/-- Witness of C7 (amended): the identifier "1.5" is rejected. -/
theorem import_rejects_malformed_witness :
    DownloadClientTransmissionResource.ImportState quotePlain "1.5"
        { Diagnostics := [], State := none } =
      { resp :=
          { Diagnostics := [] ++
              [{ severity := Severity.error
                 summary := tools.UnexpectedImportIdentifier
                 detail := "Expected import identifier with format: ID. Got: " ++
                   quotePlain "1.5" }]
            State := none }
        calls := [] } :=
  import_rejects_malformed quotePlain "1.5" { Diagnostics := [], State := none }
    (by decide) (by decide)

/-- C8, counterexample. The identifier "9223372036854775808" is a run of digits whose
value is 2^63, one more than the largest int; ImportState reports the error
UnexpectedImportIdentifier for it and sets no id. -/
theorem import_overflow_counterexample :
    isDigitRun "9223372036854775808".toList = true ∧
    decimalValue "9223372036854775808".toList = 2 ^ 63 ∧
    DownloadClientTransmissionResource.ImportState quotePlain "9223372036854775808"
        { Diagnostics := [], State := none } =
      { resp :=
          { Diagnostics :=
              [{ severity := Severity.error
                 summary := "Unexpected Import Identifier"
                 detail := "Expected import identifier with format: ID. Got: " ++
                   quotePlain "9223372036854775808" }]
            State := none }
        calls := [] } := by
  decide

/-- C8, amended. Import accepts numeric identifiers (Transmission): for every non-empty
run of digits whose value fits the type int (it is below 2^63), leading zeros allowed,
ImportState appends no diagnostic, sets the attribute id to that value, keeps every
other attribute of the state and makes no REST call. -/
theorem import_accepts_digits (quote : String → String) (s : String)
    (resp : Response DownloadClientTransmission)
    (hs : isDigitRun s.toList = true) (hfit : decimalValue s.toList < 2 ^ 63) :
    DownloadClientTransmissionResource.ImportState quote s resp =
      { resp :=
          { Diagnostics := resp.Diagnostics
            State := some
              { resp.State.getD DownloadClientTransmission.allNull with
                ID := .known (decimalValue s.toList : Int) } }
        calls := [] } := by
  simp only [DownloadClientTransmissionResource.ImportState, Atoi_of_digit_run s hs hfit]
  rfl

/-- Witness of C8 (amended): the identifier "007" sets the id 7. -/
theorem import_accepts_digits_witness :
    DownloadClientTransmissionResource.ImportState quotePlain "007"
        { Diagnostics := [], State := none } =
      { resp :=
          { Diagnostics := []
            State := some
              { (none : Option DownloadClientTransmission).getD
                  DownloadClientTransmission.allNull with
                ID := .known (decimalValue "007".toList : Int) } }
        calls := [] } ∧
    decimalValue "007".toList = 7 :=
  ⟨import_accepts_digits quotePlain "007" { Diagnostics := [], State := none }
    (by decide) (by decide), by decide⟩

/-- C9. Create/update scenario, request side (Transmission): for a record whose name,
enable flag, priority and id are known, the request of read carries these four values,
its field list is the encoding by readFields of the generic model of the record, and
that generic model holds the eleven field-backed attributes of the record; for the
record with name "t1", host "localhost", port 9091 and enable false the request has
the name "t1", enable false and the two constants, and the generic model handed to the
codec has host "localhost" and port 9091. -/
theorem transmission_read_request
    (readFields : DownloadClient → List FieldInput) (d : DownloadClientTransmission)
    (name : String) (enable : Bool) (priority id : Int)
    (hName : d.Name = .known name) (hEnable : d.Enable = .known enable)
    (hPriority : d.Priority = .known priority) (hID : d.ID = .known id) :
    ((d.read readFields).Name = name ∧
      (d.read readFields).Enable = enable ∧
      (d.read readFields).Priority = priority ∧
      (d.read readFields).ID = id ∧
      (d.read readFields).Fields = readFields d.toDownloadClient) ∧
    (d.toDownloadClient.Host = d.Host ∧
      d.toDownloadClient.Port = d.Port ∧
      d.toDownloadClient.URLBase = d.URLBase ∧
      d.toDownloadClient.Username = d.Username ∧
      d.toDownloadClient.Password = d.Password ∧
      d.toDownloadClient.TvCategory = d.TvCategory ∧
      d.toDownloadClient.TvDirectory = d.TvDirectory ∧
      d.toDownloadClient.RecentTvPriority = d.RecentTvPriority ∧
      d.toDownloadClient.OlderTvPriority = d.OlderTvPriority ∧
      d.toDownloadClient.AddPaused = d.AddPaused ∧
      d.toDownloadClient.UseSsl = d.UseSsl) ∧
    ((transmissionT1.read readFields).Name = "t1" ∧
      (transmissionT1.read readFields).Enable = false ∧
      (transmissionT1.read readFields).Implementation = "Transmission" ∧
      (transmissionT1.read readFields).ConfigContract = "TransmissionSettings" ∧
      (transmissionT1.read readFields).Fields = readFields transmissionT1.toDownloadClient ∧
      transmissionT1.toDownloadClient.Host = .known "localhost" ∧
      transmissionT1.toDownloadClient.Port = .known 9091) := by
  refine ⟨⟨?_, ?_, ?_, ?_, rfl⟩, ⟨rfl, rfl, rfl, rfl, rfl, rfl, rfl, rfl, rfl, rfl, rfl⟩,
    ⟨rfl, rfl, rfl, rfl, rfl, rfl, rfl⟩⟩
  · simp [DownloadClientTransmission.read, hName, StringValue.ValueString]
  · simp [DownloadClientTransmission.read, hEnable, BoolValue.ValueBool]
  · simp [DownloadClientTransmission.read, hPriority, Int64Value.ValueInt64]
  · simp [DownloadClientTransmission.read, hID, Int64Value.ValueInt64]

/-- Witness of C9: the fully known record, encoded with the codec modelled from the
specification; its field list holds the entries for the host and the port. -/
theorem transmission_read_request_witness :
    ((transmissionKnown.read specReadFields).Name = "t1" ∧
      (transmissionKnown.read specReadFields).Enable = true ∧
      (transmissionKnown.read specReadFields).Priority = 25 ∧
      (transmissionKnown.read specReadFields).ID = 7 ∧
      (transmissionKnown.read specReadFields).Fields =
        specReadFields transmissionKnown.toDownloadClient) ∧
    ({ Name := "host", Value := .str "localhost" } : FieldInput) ∈
      (transmissionT1.read specReadFields).Fields ∧
    ({ Name := "port", Value := .int 9091 } : FieldInput) ∈
      (transmissionT1.read specReadFields).Fields :=
  ⟨(transmission_read_request specReadFields transmissionKnown "t1" true 25 7
      rfl rfl rfl rfl).1, by decide, by decide⟩

/-- C10. Constant stamping (Lidarr, Apprise): the generic model of every Lidarr record
carries the implementation "Lidarr" and the config contract "LidarrSettings", the
generic model of every Apprise record carries "Apprise" and "AppriseSettings", and
read and write of both adapters hand exactly this stamped model to the generic read
and write functions, whatever these are. -/
theorem lidarr_apprise_stamp_constants
    (applicationRead : Application → Diagnostics → ApplicationResource × Diagnostics)
    (applicationWrite :
      Application → ApplicationResource → Diagnostics → Application × Diagnostics)
    (notificationRead : Notification → NotificationResource)
    (notificationWrite : Notification → NotificationResource → Notification)
    (a : ApplicationLidarr) (n : NotificationApprise) (diags : Diagnostics)
    (application : ApplicationResource) (notification : NotificationResource) :
    a.toApplication.Implementation = .known "Lidarr" ∧
    a.toApplication.ConfigContract = .known "LidarrSettings" ∧
    n.toNotification.Implementation = .known "Apprise" ∧
    n.toNotification.ConfigContract = .known "AppriseSettings" ∧
    a.read applicationRead diags = applicationRead a.toApplication diags ∧
    a.write applicationWrite application diags =
      (a.fromApplication (applicationWrite a.toApplication application diags).1,
        (applicationWrite a.toApplication application diags).2) ∧
    n.read notificationRead = notificationRead n.toNotification ∧
    n.write notificationWrite notification =
      n.fromNotification (notificationWrite n.toNotification notification) :=
  ⟨rfl, rfl, rfl, rfl, rfl, rfl, rfl, rfl⟩

theorem fromApplication_toApplication (a e : ApplicationLidarr) :
    e.fromApplication a.toApplication = a := by
  cases a
  rfl

theorem fromNotification_toNotification (n e : NotificationApprise) :
    e.fromNotification n.toNotification = n := by
  cases n
  rfl

/-- C11. Envelope round trip: for each of the three adapters, converting a record to
the generic model and assigning that model straight back to the record leaves every
field of the record unchanged (16 for Transmission, 8 for Lidarr, 12 for Apprise). -/
theorem envelope_round_trip (d : DownloadClientTransmission) (a : ApplicationLidarr)
    (n : NotificationApprise) :
    d.fromDownloadClient d.toDownloadClient = d ∧
    a.fromApplication a.toApplication = a ∧
    n.fromNotification n.toNotification = n :=
  ⟨fromDownloadClient_toDownloadClient d d, fromApplication_toApplication a a,
    fromNotification_toNotification n n⟩

/-- C19. Name-preserving field mapping: each to-generic function gives the zero generic
model with every attribute of the record copied to the generic field of the same name
and, for Lidarr and Apprise, the two constants stamped, so that every remaining generic
field is at its zero value; each from-generic function assigns to every attribute of
the record the generic field of the same name. -/
theorem field_mapping_preserves_names (d : DownloadClientTransmission)
    (a : ApplicationLidarr) (n : NotificationApprise) (g : DownloadClient)
    (ga : Application) (gn : Notification) :
    (d.toDownloadClient =
      { ({ } : DownloadClient) with
        Tags := d.Tags
        Name := d.Name
        Host := d.Host
        URLBase := d.URLBase
        Username := d.Username
        Password := d.Password
        TvCategory := d.TvCategory
        TvDirectory := d.TvDirectory
        RecentTvPriority := d.RecentTvPriority
        OlderTvPriority := d.OlderTvPriority
        Priority := d.Priority
        Port := d.Port
        ID := d.ID
        AddPaused := d.AddPaused
        UseSsl := d.UseSsl
        Enable := d.Enable } ∧
    a.toApplication =
      { ({ } : Application) with
        SyncCategories := a.SyncCategories
        Tags := a.Tags
        Name := a.Name
        SyncLevel := a.SyncLevel
        ProwlarrURL := a.ProwlarrURL
        BaseURL := a.BaseURL
        APIKey := a.APIKey
        ID := a.ID
        ConfigContract := .known "LidarrSettings"
        Implementation := .known "Lidarr" } ∧
    n.toNotification =
      { ({ } : Notification) with
        Tags := n.Tags
        FieldTags := n.FieldTags
        ConfigurationKey := n.ConfigurationKey
        StatelessURLs := n.StatelessURLs
        BaseURL := n.BaseURL
        AuthUsername := n.AuthUsername
        AuthPassword := n.AuthPassword
        Name := n.Name
        ID := n.ID
        IncludeHealthWarnings := n.IncludeHealthWarnings
        OnApplicationUpdate := n.OnApplicationUpdate
        OnHealthIssue := n.OnHealthIssue
        ConfigContract := .known "AppriseSettings"
        Implementation := .known "Apprise" }) ∧
    (d.toDownloadClient.ConfigContract = .null ∧
      d.toDownloadClient.Implementation = .null ∧
      d.toDownloadClient.Protocol = .null) ∧
    (d.toDownloadClient.Tags = d.Tags ∧
    d.toDownloadClient.Name = d.Name ∧
    d.toDownloadClient.Host = d.Host ∧
    d.toDownloadClient.URLBase = d.URLBase ∧
    d.toDownloadClient.Username = d.Username ∧
    d.toDownloadClient.Password = d.Password ∧
    d.toDownloadClient.TvCategory = d.TvCategory ∧
    d.toDownloadClient.TvDirectory = d.TvDirectory ∧
    d.toDownloadClient.RecentTvPriority = d.RecentTvPriority ∧
    d.toDownloadClient.OlderTvPriority = d.OlderTvPriority ∧
    d.toDownloadClient.Priority = d.Priority ∧
    d.toDownloadClient.Port = d.Port ∧
    d.toDownloadClient.ID = d.ID ∧
    d.toDownloadClient.AddPaused = d.AddPaused ∧
    d.toDownloadClient.UseSsl = d.UseSsl ∧
    d.toDownloadClient.Enable = d.Enable) ∧
    (a.toApplication.SyncCategories = a.SyncCategories ∧
    a.toApplication.Tags = a.Tags ∧
    a.toApplication.Name = a.Name ∧
    a.toApplication.SyncLevel = a.SyncLevel ∧
    a.toApplication.ProwlarrURL = a.ProwlarrURL ∧
    a.toApplication.BaseURL = a.BaseURL ∧
    a.toApplication.APIKey = a.APIKey ∧
    a.toApplication.ID = a.ID) ∧
    (n.toNotification.Tags = n.Tags ∧
    n.toNotification.FieldTags = n.FieldTags ∧
    n.toNotification.ConfigurationKey = n.ConfigurationKey ∧
    n.toNotification.StatelessURLs = n.StatelessURLs ∧
    n.toNotification.BaseURL = n.BaseURL ∧
    n.toNotification.AuthUsername = n.AuthUsername ∧
    n.toNotification.AuthPassword = n.AuthPassword ∧
    n.toNotification.Name = n.Name ∧
    n.toNotification.ID = n.ID ∧
    n.toNotification.IncludeHealthWarnings = n.IncludeHealthWarnings ∧
    n.toNotification.OnApplicationUpdate = n.OnApplicationUpdate ∧
    n.toNotification.OnHealthIssue = n.OnHealthIssue) ∧
    ((d.fromDownloadClient g).Tags = g.Tags ∧
    (d.fromDownloadClient g).Name = g.Name ∧
    (d.fromDownloadClient g).Host = g.Host ∧
    (d.fromDownloadClient g).URLBase = g.URLBase ∧
    (d.fromDownloadClient g).Username = g.Username ∧
    (d.fromDownloadClient g).Password = g.Password ∧
    (d.fromDownloadClient g).TvCategory = g.TvCategory ∧
    (d.fromDownloadClient g).TvDirectory = g.TvDirectory ∧
    (d.fromDownloadClient g).RecentTvPriority = g.RecentTvPriority ∧
    (d.fromDownloadClient g).OlderTvPriority = g.OlderTvPriority ∧
    (d.fromDownloadClient g).Priority = g.Priority ∧
    (d.fromDownloadClient g).Port = g.Port ∧
    (d.fromDownloadClient g).ID = g.ID ∧
    (d.fromDownloadClient g).AddPaused = g.AddPaused ∧
    (d.fromDownloadClient g).UseSsl = g.UseSsl ∧
    (d.fromDownloadClient g).Enable = g.Enable) ∧
    ((a.fromApplication ga).SyncCategories = ga.SyncCategories ∧
    (a.fromApplication ga).Tags = ga.Tags ∧
    (a.fromApplication ga).Name = ga.Name ∧
    (a.fromApplication ga).SyncLevel = ga.SyncLevel ∧
    (a.fromApplication ga).ProwlarrURL = ga.ProwlarrURL ∧
    (a.fromApplication ga).BaseURL = ga.BaseURL ∧
    (a.fromApplication ga).APIKey = ga.APIKey ∧
    (a.fromApplication ga).ID = ga.ID) ∧
    ((n.fromNotification gn).Tags = gn.Tags ∧
    (n.fromNotification gn).FieldTags = gn.FieldTags ∧
    (n.fromNotification gn).ConfigurationKey = gn.ConfigurationKey ∧
    (n.fromNotification gn).StatelessURLs = gn.StatelessURLs ∧
    (n.fromNotification gn).BaseURL = gn.BaseURL ∧
    (n.fromNotification gn).AuthUsername = gn.AuthUsername ∧
    (n.fromNotification gn).AuthPassword = gn.AuthPassword ∧
    (n.fromNotification gn).Name = gn.Name ∧
    (n.fromNotification gn).ID = gn.ID ∧
    (n.fromNotification gn).IncludeHealthWarnings = gn.IncludeHealthWarnings ∧
    (n.fromNotification gn).OnApplicationUpdate = gn.OnApplicationUpdate ∧
    (n.fromNotification gn).OnHealthIssue = gn.OnHealthIssue) :=
  ⟨⟨rfl, rfl, rfl⟩, ⟨rfl, rfl, rfl⟩,
    ⟨rfl, rfl, rfl, rfl, rfl, rfl, rfl, rfl, rfl, rfl, rfl, rfl, rfl, rfl, rfl, rfl⟩,
    ⟨rfl, rfl, rfl, rfl, rfl, rfl, rfl, rfl⟩,
    ⟨rfl, rfl, rfl, rfl, rfl, rfl, rfl, rfl, rfl, rfl, rfl, rfl⟩,
    ⟨rfl, rfl, rfl, rfl, rfl, rfl, rfl, rfl, rfl, rfl, rfl, rfl, rfl, rfl, rfl, rfl⟩,
    ⟨rfl, rfl, rfl, rfl, rfl, rfl, rfl, rfl⟩,
    ⟨rfl, rfl, rfl, rfl, rfl, rfl, rfl, rfl, rfl, rfl, rfl, rfl⟩⟩

/-- C20. Configure on an unconfigured provider (Transmission): with nil provider data
Configure adds no diagnostic and keeps the client; with provider data of another type
it appends exactly one diagnostic, an error with the summary
UnexpectedResourceConfigureType, and keeps the client; with a pointer to
prowlarr.Prowlarr it sets the client to that pointer and adds no diagnostic. -/
theorem transmission_configure (r : DownloadClientTransmissionResource)
    (resp : ConfigureResponse) (typeName : String) (client : Option Prowlarr)
    (hNoError : resp.Diagnostics.HasError = false) :
    r.Configure .nil resp = (r, resp) ∧
    r.Configure (.other typeName) resp =
      (r, { Diagnostics := resp.Diagnostics ++
        [{ severity := Severity.error
           summary := tools.UnexpectedResourceConfigureType
           detail := "Expected *prowlarr.Prowlarr, got: " ++ typeName ++
             ". Please report this issue to the provider developers." }] }) ∧
    (r.Configure (.other typeName) resp).2.Diagnostics.errorCount =
      resp.Diagnostics.errorCount + 1 ∧
    (r.Configure (.prowlarr client) resp).1.client = client ∧
    (r.Configure (.prowlarr client) resp).2 = resp ∧
    (∀ providerData : ProviderData,
      (r.Configure providerData resp).1.client ≠ r.client →
        providerData = .prowlarr (r.Configure providerData resp).1.client ∧
        (r.Configure providerData resp).2 = resp) := by
  have hOther : r.Configure (.other typeName) resp =
      (r, { Diagnostics := resp.Diagnostics ++
        [{ severity := Severity.error
           summary := tools.UnexpectedResourceConfigureType
           detail := "Expected *prowlarr.Prowlarr, got: " ++ typeName ++
             ". Please report this issue to the provider developers." }] }) := by
    simp only [DownloadClientTransmissionResource.Configure,
      AddError_of_HasError_false _ _ _ hNoError]
  refine ⟨rfl, hOther, ?_, rfl, rfl, ?_⟩
  · rw [hOther]
    exact errorCount_append_error _ _ _
  · intro providerData h
    cases providerData with
    | nil => exact absurd rfl h
    | other t => exact absurd rfl h
    | prowlarr c => exact ⟨rfl, rfl⟩

/-- Witness of C20: a resource without a client, configured with a value of type
string, with nil and with a client. -/
theorem transmission_configure_witness :
    (DownloadClientTransmissionResource.Configure { client := none } (.other "string")
      { Diagnostics := [] }).2 =
      { Diagnostics := [] ++
        [{ severity := Severity.error
           summary := tools.UnexpectedResourceConfigureType
           detail := "Expected *prowlarr.Prowlarr, got: " ++ "string" ++
             ". Please report this issue to the provider developers." }] } ∧
    (DownloadClientTransmissionResource.Configure { client := none }
      (.prowlarr (some (failingProwlarr notFoundError))) { Diagnostics := [] }).1.client =
      some (failingProwlarr notFoundError) :=
  have h := transmission_configure { client := none } { Diagnostics := [] } "string"
    (some (failingProwlarr notFoundError)) rfl
  ⟨congrArg Prod.snd h.2.1, h.2.2.2.1⟩

theorem write_eq_envelopeModel
    (writeFields : DownloadClient → List FieldOutput → DownloadClient)
    (d : DownloadClientTransmission) (response : DownloadClientOutput) :
    d.write writeFields response =
      d.fromDownloadClient (writeFields (envelopeModel response) response.Fields) :=
  rfl

theorem transmission_create_ok
    (readFields : DownloadClient → List FieldInput)
    (writeFields : DownloadClient → List FieldOutput → DownloadClient)
    (r : Prowlarr) (diags : Diagnostics) (client : DownloadClientTransmission)
    (resp : Response DownloadClientTransmission) (response : DownloadClientOutput)
    (hNoError : (resp.Diagnostics.Append diags).HasError = false)
    (hAdd : r.AddDownloadClientContext (client.read readFields) = .ok response) :
    DownloadClientTransmissionResource.Create readFields writeFields r diags client resp =
      { resp :=
          { Diagnostics := resp.Diagnostics.Append diags
            State := some (client.write writeFields response) }
        calls := [.add (client.read readFields)] } := by
  simp only [DownloadClientTransmissionResource.Create, hNoError, hAdd]
  rfl

theorem transmission_read_ok
    (writeFields : DownloadClient → List FieldOutput → DownloadClient)
    (r : Prowlarr) (diags : Diagnostics) (client : DownloadClientTransmission)
    (resp : Response DownloadClientTransmission) (response : DownloadClientOutput)
    (hNoError : (resp.Diagnostics.Append diags).HasError = false)
    (hGet : r.GetDownloadClientContext client.ID.ValueInt64 = .ok response) :
    DownloadClientTransmissionResource.Read writeFields r diags client resp =
      { resp :=
          { Diagnostics := resp.Diagnostics.Append diags
            State := some (client.write writeFields response) }
        calls := [.get client.ID.ValueInt64] } := by
  simp only [DownloadClientTransmissionResource.Read, hNoError, hGet]
  rfl

theorem transmission_update_ok
    (readFields : DownloadClient → List FieldInput)
    (writeFields : DownloadClient → List FieldOutput → DownloadClient)
    (r : Prowlarr) (diags : Diagnostics) (client : DownloadClientTransmission)
    (resp : Response DownloadClientTransmission) (response : DownloadClientOutput)
    (hNoError : (resp.Diagnostics.Append diags).HasError = false)
    (hUpdate : r.UpdateDownloadClientContext (client.read readFields) = .ok response) :
    DownloadClientTransmissionResource.Update readFields writeFields r diags client resp =
      { resp :=
          { Diagnostics := resp.Diagnostics.Append diags
            State := some (client.write writeFields response) }
        calls := [.update (client.read readFields)] } := by
  simp only [DownloadClientTransmissionResource.Update, hNoError, hUpdate]
  rfl

theorem decodeFields_ok (g g' : DownloadClient) (fields : List FieldOutput)
    (h : decodeFields g fields = .ok g') :
    (decodeStringField fields "host" = .ok g'.Host ∧
      decodeStringField fields "urlBase" = .ok g'.URLBase ∧
      decodeStringField fields "username" = .ok g'.Username ∧
      decodeStringField fields "password" = .ok g'.Password ∧
      decodeStringField fields "tvCategory" = .ok g'.TvCategory ∧
      decodeStringField fields "tvDirectory" = .ok g'.TvDirectory ∧
      decodeEnumField fields "recentTvPriority" [0, 1] = .ok g'.RecentTvPriority ∧
      decodeEnumField fields "olderTvPriority" [0, 1] = .ok g'.OlderTvPriority ∧
      decodeInt64Field fields "port" = .ok g'.Port ∧
      decodeBoolField fields "addPaused" = .ok g'.AddPaused ∧
      decodeBoolField fields "useSsl" = .ok g'.UseSsl) ∧
    (g'.ID = g.ID ∧ g'.Name = g.Name ∧ g'.Enable = g.Enable ∧ g'.Priority = g.Priority ∧
      g'.Tags = g.Tags) := by
  unfold decodeFields at h
  cases h1 : decodeStringField fields "host" <;>
    rw [h1] at h <;>
    try exact Except.noConfusion h
  cases h2 : decodeStringField fields "urlBase" <;>
    rw [h2] at h <;>
    try exact Except.noConfusion h
  cases h3 : decodeStringField fields "username" <;>
    rw [h3] at h <;>
    try exact Except.noConfusion h
  cases h4 : decodeStringField fields "password" <;>
    rw [h4] at h <;>
    try exact Except.noConfusion h
  cases h5 : decodeStringField fields "tvCategory" <;>
    rw [h5] at h <;>
    try exact Except.noConfusion h
  cases h6 : decodeStringField fields "tvDirectory" <;>
    rw [h6] at h <;>
    try exact Except.noConfusion h
  cases h7 : decodeEnumField fields "recentTvPriority" [0, 1] <;>
    rw [h7] at h <;>
    try exact Except.noConfusion h
  cases h8 : decodeEnumField fields "olderTvPriority" [0, 1] <;>
    rw [h8] at h <;>
    try exact Except.noConfusion h
  cases h9 : decodeInt64Field fields "port" <;>
    rw [h9] at h <;>
    try exact Except.noConfusion h
  cases h10 : decodeBoolField fields "addPaused" <;>
    rw [h10] at h <;>
    try exact Except.noConfusion h
  cases h11 : decodeBoolField fields "useSsl" <;>
    rw [h11] at h <;>
    try exact Except.noConfusion h
  have h' : g' = _ := (Except.ok.inj h).symm
  subst h'
  exact ⟨⟨rfl, rfl, rfl, rfl, rfl, rfl, rfl, rfl, rfl, rfl, rfl⟩, rfl, rfl, rfl, rfl, rfl⟩

theorem specWriteFields_envelope (g : DownloadClient) (fields : List FieldOutput) :
    (specWriteFields g fields).ID = g.ID ∧ (specWriteFields g fields).Name = g.Name ∧
    (specWriteFields g fields).Enable = g.Enable ∧
    (specWriteFields g fields).Priority = g.Priority := by
  unfold specWriteFields
  cases h : decodeFields g fields with
  | error e => exact ⟨rfl, rfl, rfl, rfl⟩
  | ok g' =>
    have hk := (decodeFields_ok g g' fields h).2
    exact ⟨hk.1, hk.2.1, hk.2.2.1, hk.2.2.2.1⟩

/-- C16. Server response is ground truth (Transmission): when the field codec leaves
the id, name, enable flag and priority of the generic model as they are, then for each
of Create, Read and Update on its own, if the REST call of the handler succeeds, the
record that the handler stores in the state has the id, name, enable flag and priority
of the response of the server, whatever the plan or the prior state held. -/
theorem server_response_is_ground_truth
    (readFields : DownloadClient → List FieldInput)
    (writeFields : DownloadClient → List FieldOutput → DownloadClient)
    (r : Prowlarr) (diags : Diagnostics) (client : DownloadClientTransmission)
    (resp : Response DownloadClientTransmission)
    (hCodec : ∀ (g : DownloadClient) (fields : List FieldOutput),
      (writeFields g fields).ID = g.ID ∧ (writeFields g fields).Name = g.Name ∧
      (writeFields g fields).Enable = g.Enable ∧
      (writeFields g fields).Priority = g.Priority)
    (hNoError : (resp.Diagnostics.Append diags).HasError = false) :
    (∀ response : DownloadClientOutput,
      r.AddDownloadClientContext (client.read readFields) = .ok response →
      (DownloadClientTransmissionResource.Create readFields writeFields r diags client
        resp).resp.State =
        some (client.write writeFields response) ∧
      (client.write writeFields response).ID = .known response.ID ∧
      (client.write writeFields response).Name = .known response.Name ∧
      (client.write writeFields response).Enable = .known response.Enable ∧
      (client.write writeFields response).Priority = .known response.Priority) ∧
    (∀ response : DownloadClientOutput,
      r.GetDownloadClientContext client.ID.ValueInt64 = .ok response →
      (DownloadClientTransmissionResource.Read writeFields r diags client resp).resp.State =
        some (client.write writeFields response) ∧
      (client.write writeFields response).ID = .known response.ID ∧
      (client.write writeFields response).Name = .known response.Name ∧
      (client.write writeFields response).Enable = .known response.Enable ∧
      (client.write writeFields response).Priority = .known response.Priority) ∧
    (∀ response : DownloadClientOutput,
      r.UpdateDownloadClientContext (client.read readFields) = .ok response →
      (DownloadClientTransmissionResource.Update readFields writeFields r diags client
        resp).resp.State =
        some (client.write writeFields response) ∧
      (client.write writeFields response).ID = .known response.ID ∧
      (client.write writeFields response).Name = .known response.Name ∧
      (client.write writeFields response).Enable = .known response.Enable ∧
      (client.write writeFields response).Priority = .known response.Priority) := by
  have hw : ∀ response : DownloadClientOutput,
      (client.write writeFields response).ID = .known response.ID ∧
      (client.write writeFields response).Name = .known response.Name ∧
      (client.write writeFields response).Enable = .known response.Enable ∧
      (client.write writeFields response).Priority = .known response.Priority := by
    intro response
    have hc := hCodec (envelopeModel response) response.Fields
    rw [write_eq_envelopeModel]
    exact ⟨hc.1, hc.2.1, hc.2.2.1, hc.2.2.2⟩
  refine ⟨?_, ?_, ?_⟩
  · intro response h
    rw [transmission_create_ok readFields writeFields r diags client resp response
      hNoError h]
    exact ⟨rfl, hw response⟩
  · intro response h
    rw [transmission_read_ok writeFields r diags client resp response hNoError h]
    exact ⟨rfl, hw response⟩
  · intro response h
    rw [transmission_update_ok readFields writeFields r diags client resp response
      hNoError h]
    exact ⟨rfl, hw response⟩

/-- Witness of C16: Create runs on the plan with unknown id, name "old" and priority 1
while the add call answers with id 7, name "t1" and priority 25 and every other call
fails; the state it sets holds the values of the server. -/
theorem server_response_is_ground_truth_witness :
    (DownloadClientTransmissionResource.Create specReadFields specWriteFields
      { failingProwlarr notFoundError with
        AddDownloadClientContext := fun _ => .ok responsePort9092 }
      [] transmissionPlanned
      { Diagnostics := [], State := none }).resp.State =
      some (transmissionPlanned.write specWriteFields responsePort9092) ∧
    (transmissionPlanned.write specWriteFields responsePort9092).ID =
      .known responsePort9092.ID ∧
    (transmissionPlanned.write specWriteFields responsePort9092).Name =
      .known responsePort9092.Name ∧
    (transmissionPlanned.write specWriteFields responsePort9092).Enable =
      .known responsePort9092.Enable ∧
    (transmissionPlanned.write specWriteFields responsePort9092).Priority =
      .known responsePort9092.Priority :=
  (server_response_is_ground_truth specReadFields specWriteFields
    { failingProwlarr notFoundError with
      AddDownloadClientContext := fun _ => .ok responsePort9092 }
    [] transmissionPlanned
    { Diagnostics := [], State := none } specWriteFields_envelope rfl).1
    responsePort9092 rfl

theorem decodeStringField_absent (fields : List FieldOutput) (name : String)
    (h : lookupField fields name = none) : decodeStringField fields name = .ok .null := by
  simp [decodeStringField, h]

theorem decodeInt64Field_absent (fields : List FieldOutput) (name : String)
    (h : lookupField fields name = none) : decodeInt64Field fields name = .ok .null := by
  simp [decodeInt64Field, h]

theorem decodeEnumField_absent (fields : List FieldOutput) (name : String)
    (allowed : List Int) (h : lookupField fields name = none) :
    decodeEnumField fields name allowed = .ok .null := by
  simp [decodeEnumField, h]

theorem decodeBoolField_absent (fields : List FieldOutput) (name : String)
    (h : lookupField fields name = none) : decodeBoolField fields name = .ok .null := by
  simp [decodeBoolField, h]

/-- C17. Default-field invariant (Transmission), with the field codec modelled from the
specification: write is a total function without an error result, and for every
response each of the eleven field-backed attributes whose entry the field list omits
ends at the zero value that the attribute has in the zero generic model; with an empty
field list all eleven end there, next to the envelope of the response; a Read whose get
call returns the response adds no diagnostic. -/
theorem default_field_invariant (d : DownloadClientTransmission)
    (response : DownloadClientOutput) (r : Prowlarr) (diags : Diagnostics)
    (resp : Response DownloadClientTransmission) :
    (lookupField response.Fields "host" = none →
      (d.write specWriteFields response).Host = ({ } : DownloadClient).Host) ∧
    (lookupField response.Fields "urlBase" = none →
      (d.write specWriteFields response).URLBase = ({ } : DownloadClient).URLBase) ∧
    (lookupField response.Fields "username" = none →
      (d.write specWriteFields response).Username = ({ } : DownloadClient).Username) ∧
    (lookupField response.Fields "password" = none →
      (d.write specWriteFields response).Password = ({ } : DownloadClient).Password) ∧
    (lookupField response.Fields "tvCategory" = none →
      (d.write specWriteFields response).TvCategory = ({ } : DownloadClient).TvCategory) ∧
    (lookupField response.Fields "tvDirectory" = none →
      (d.write specWriteFields response).TvDirectory = ({ } : DownloadClient).TvDirectory) ∧
    (lookupField response.Fields "recentTvPriority" = none →
      (d.write specWriteFields response).RecentTvPriority = ({ } : DownloadClient).RecentTvPriority) ∧
    (lookupField response.Fields "olderTvPriority" = none →
      (d.write specWriteFields response).OlderTvPriority = ({ } : DownloadClient).OlderTvPriority) ∧
    (lookupField response.Fields "port" = none →
      (d.write specWriteFields response).Port = ({ } : DownloadClient).Port) ∧
    (lookupField response.Fields "addPaused" = none →
      (d.write specWriteFields response).AddPaused = ({ } : DownloadClient).AddPaused) ∧
    (lookupField response.Fields "useSsl" = none →
      (d.write specWriteFields response).UseSsl = ({ } : DownloadClient).UseSsl) ∧
    (response.Fields = [] →
      d.write specWriteFields response =
        { DownloadClientTransmission.allNull with
          Enable := .known response.Enable
          Priority := .known response.Priority
          ID := .known response.ID
          Name := .known response.Name
          Tags := tagsValueFrom response.Tags (.known []) }) ∧
    ((resp.Diagnostics.Append diags).HasError = false →
      r.GetDownloadClientContext d.ID.ValueInt64 = .ok response →
      (DownloadClientTransmissionResource.Read specWriteFields r diags d
        resp).resp.Diagnostics = resp.Diagnostics.Append diags) := by
  refine ⟨?_, ?_, ?_, ?_, ?_, ?_, ?_, ?_, ?_, ?_, ?_, ?_, ?_⟩
  · intro habs
    rw [write_eq_envelopeModel]
    show (specWriteFields (envelopeModel response) response.Fields).Host = _
    unfold specWriteFields
    cases hdec : decodeFields (envelopeModel response) response.Fields with
    | error e => rfl
    | ok g' =>
      have hk := (decodeFields_ok _ _ _ hdec).1.1
      rw [decodeStringField_absent _ _ habs] at hk
      exact (Except.ok.inj hk).symm
  · intro habs
    rw [write_eq_envelopeModel]
    show (specWriteFields (envelopeModel response) response.Fields).URLBase = _
    unfold specWriteFields
    cases hdec : decodeFields (envelopeModel response) response.Fields with
    | error e => rfl
    | ok g' =>
      have hk := (decodeFields_ok _ _ _ hdec).1.2.1
      rw [decodeStringField_absent _ _ habs] at hk
      exact (Except.ok.inj hk).symm
  · intro habs
    rw [write_eq_envelopeModel]
    show (specWriteFields (envelopeModel response) response.Fields).Username = _
    unfold specWriteFields
    cases hdec : decodeFields (envelopeModel response) response.Fields with
    | error e => rfl
    | ok g' =>
      have hk := (decodeFields_ok _ _ _ hdec).1.2.2.1
      rw [decodeStringField_absent _ _ habs] at hk
      exact (Except.ok.inj hk).symm
  · intro habs
    rw [write_eq_envelopeModel]
    show (specWriteFields (envelopeModel response) response.Fields).Password = _
    unfold specWriteFields
    cases hdec : decodeFields (envelopeModel response) response.Fields with
    | error e => rfl
    | ok g' =>
      have hk := (decodeFields_ok _ _ _ hdec).1.2.2.2.1
      rw [decodeStringField_absent _ _ habs] at hk
      exact (Except.ok.inj hk).symm
  · intro habs
    rw [write_eq_envelopeModel]
    show (specWriteFields (envelopeModel response) response.Fields).TvCategory = _
    unfold specWriteFields
    cases hdec : decodeFields (envelopeModel response) response.Fields with
    | error e => rfl
    | ok g' =>
      have hk := (decodeFields_ok _ _ _ hdec).1.2.2.2.2.1
      rw [decodeStringField_absent _ _ habs] at hk
      exact (Except.ok.inj hk).symm
  · intro habs
    rw [write_eq_envelopeModel]
    show (specWriteFields (envelopeModel response) response.Fields).TvDirectory = _
    unfold specWriteFields
    cases hdec : decodeFields (envelopeModel response) response.Fields with
    | error e => rfl
    | ok g' =>
      have hk := (decodeFields_ok _ _ _ hdec).1.2.2.2.2.2.1
      rw [decodeStringField_absent _ _ habs] at hk
      exact (Except.ok.inj hk).symm
  · intro habs
    rw [write_eq_envelopeModel]
    show (specWriteFields (envelopeModel response) response.Fields).RecentTvPriority = _
    unfold specWriteFields
    cases hdec : decodeFields (envelopeModel response) response.Fields with
    | error e => rfl
    | ok g' =>
      have hk := (decodeFields_ok _ _ _ hdec).1.2.2.2.2.2.2.1
      rw [decodeEnumField_absent _ _ _ habs] at hk
      exact (Except.ok.inj hk).symm
  · intro habs
    rw [write_eq_envelopeModel]
    show (specWriteFields (envelopeModel response) response.Fields).OlderTvPriority = _
    unfold specWriteFields
    cases hdec : decodeFields (envelopeModel response) response.Fields with
    | error e => rfl
    | ok g' =>
      have hk := (decodeFields_ok _ _ _ hdec).1.2.2.2.2.2.2.2.1
      rw [decodeEnumField_absent _ _ _ habs] at hk
      exact (Except.ok.inj hk).symm
  · intro habs
    rw [write_eq_envelopeModel]
    show (specWriteFields (envelopeModel response) response.Fields).Port = _
    unfold specWriteFields
    cases hdec : decodeFields (envelopeModel response) response.Fields with
    | error e => rfl
    | ok g' =>
      have hk := (decodeFields_ok _ _ _ hdec).1.2.2.2.2.2.2.2.2.1
      rw [decodeInt64Field_absent _ _ habs] at hk
      exact (Except.ok.inj hk).symm
  · intro habs
    rw [write_eq_envelopeModel]
    show (specWriteFields (envelopeModel response) response.Fields).AddPaused = _
    unfold specWriteFields
    cases hdec : decodeFields (envelopeModel response) response.Fields with
    | error e => rfl
    | ok g' =>
      have hk := (decodeFields_ok _ _ _ hdec).1.2.2.2.2.2.2.2.2.2.1
      rw [decodeBoolField_absent _ _ habs] at hk
      exact (Except.ok.inj hk).symm
  · intro habs
    rw [write_eq_envelopeModel]
    show (specWriteFields (envelopeModel response) response.Fields).UseSsl = _
    unfold specWriteFields
    cases hdec : decodeFields (envelopeModel response) response.Fields with
    | error e => rfl
    | ok g' =>
      have hk := (decodeFields_ok _ _ _ hdec).1.2.2.2.2.2.2.2.2.2.2
      rw [decodeBoolField_absent _ _ habs] at hk
      exact (Except.ok.inj hk).symm
  · intro hempty
    rw [write_eq_envelopeModel, hempty]
    rfl
  · intro hNoError hGet
    rw [transmission_read_ok specWriteFields r diags d resp response hNoError hGet]

/-- Witness of C17: a response with an empty field list, and the response that holds
only the host and recentTvPriority entries, written over the fully known record. -/
theorem default_field_invariant_witness :
    (transmissionKnown.write specWriteFields
      { responsePriorityTwo with Fields := [] }).Host = .null ∧
    (transmissionKnown.write specWriteFields responsePriorityTwo).Port = .null ∧
    (transmissionKnown.write specWriteFields responsePriorityTwo).UseSsl = .null ∧
    (transmissionKnown.write specWriteFields responsePort9092).Host =
      .known "localhost" :=
  ⟨(default_field_invariant transmissionKnown { responsePriorityTwo with Fields := [] }
      (acceptingProwlarr responsePriorityTwo) []
      { Diagnostics := [], State := some transmissionKnown }).1 rfl,
    (default_field_invariant transmissionKnown responsePriorityTwo
      (acceptingProwlarr responsePriorityTwo) []
      { Diagnostics := [], State := some transmissionKnown }).2.2.2.2.2.2.2.2.1 (by decide),
    (default_field_invariant transmissionKnown responsePriorityTwo
      (acceptingProwlarr responsePriorityTwo) []
      { Diagnostics := [], State := some transmissionKnown }).2.2.2.2.2.2.2.2.2.2.1
      (by decide),
    by decide⟩

theorem lidarr_create_ok
    (genericRead : Application → Diagnostics → ApplicationResource × Diagnostics)
    (genericWrite :
      Application → ApplicationResource → Diagnostics → Application × Diagnostics)
    (ParseClientError : helpers.Operation → String → RestError → String)
    (ra : ApplicationApi) (planDiags : Diagnostics) (application : ApplicationLidarr)
    (resp : Response ApplicationLidarr) (response : ApplicationResource)
    (hNoError : (resp.Diagnostics.Append planDiags).HasError = false)
    (hCreate : ra.CreateApplications
      (application.read genericRead (resp.Diagnostics.Append planDiags)).1 = .ok response) :
    ApplicationLidarrResource.Create genericRead genericWrite ParseClientError ra planDiags
        application resp =
      { resp :=
          { Diagnostics := (application.write genericWrite response
              (application.read genericRead (resp.Diagnostics.Append planDiags)).2).2
            State := some (application.write genericWrite response
              (application.read genericRead (resp.Diagnostics.Append planDiags)).2).1 }
        calls := [.create
          (application.read genericRead (resp.Diagnostics.Append planDiags)).1] } := by
  simp only [ApplicationLidarrResource.Create, hNoError, hCreate]
  rfl

theorem lidarr_update_ok
    (genericRead : Application → Diagnostics → ApplicationResource × Diagnostics)
    (genericWrite :
      Application → ApplicationResource → Diagnostics → Application × Diagnostics)
    (ParseClientError : helpers.Operation → String → RestError → String)
    (ra : ApplicationApi) (planDiags : Diagnostics) (application : ApplicationLidarr)
    (resp : Response ApplicationLidarr) (response : ApplicationResource)
    (hNoError : (resp.Diagnostics.Append planDiags).HasError = false)
    (hUpdate : ra.UpdateApplications
      (Itoa (application.read genericRead (resp.Diagnostics.Append planDiags)).1.Id)
      (application.read genericRead (resp.Diagnostics.Append planDiags)).1 = .ok response) :
    ApplicationLidarrResource.Update genericRead genericWrite ParseClientError ra planDiags
        application resp =
      { resp :=
          { Diagnostics := (application.write genericWrite response
              (application.read genericRead (resp.Diagnostics.Append planDiags)).2).2
            State := some (application.write genericWrite response
              (application.read genericRead (resp.Diagnostics.Append planDiags)).2).1 }
        calls := [.update
          (Itoa (application.read genericRead (resp.Diagnostics.Append planDiags)).1.Id)
          (application.read genericRead (resp.Diagnostics.Append planDiags)).1] } := by
  simp only [ApplicationLidarrResource.Update, hNoError, hUpdate]
  rfl

/-- C14, counterexample. The create call of Lidarr succeeds and the generic write
reports a coercion failure as an error diagnostic. The handler keeps the error in the
diagnostics and still sets the state, which was empty on entry, to the written record;
Update does the same over a prior state. -/
theorem lidarr_decode_failure_counterexample :
    ApplicationLidarrResource.Create plainApplicationRead mismatchApplicationWrite
        specParseClientError (acceptingApplicationApi lidarrWire) []
        { lidarrExample with ID := .unknown } { Diagnostics := [], State := none } =
      { resp :=
          { Diagnostics :=
              [{ severity := Severity.error
                 summary := "Field Type Mismatch"
                 detail := "syncCategories" }]
            State := some lidarrExample }
        calls := [.create lidarrWire] } ∧
    ApplicationLidarrResource.Update plainApplicationRead mismatchApplicationWrite
        specParseClientError (acceptingApplicationApi lidarrWire) []
        { lidarrExample with Name := .known "renamed" }
        { Diagnostics := [], State := some { lidarrExample with Name := .known "old" } } =
      { resp :=
          { Diagnostics :=
              [{ severity := Severity.error
                 summary := "Field Type Mismatch"
                 detail := "syncCategories" }]
            State := some lidarrExample }
        calls := [.update "4" lidarrWire] } := by
  decide

/-- C14, amended. Decode failure in Create and Update (Lidarr): for each of the two
handlers on its own, when the REST call of the handler succeeds, the diagnostics of the
response are the ones that read and write leave, so an error that write appends is
reported, and the handler sets the state to the record that write produced whether or
not write appended an error. -/
theorem lidarr_write_error_still_sets_state
    (genericRead : Application → Diagnostics → ApplicationResource × Diagnostics)
    (genericWrite :
      Application → ApplicationResource → Diagnostics → Application × Diagnostics)
    (ParseClientError : helpers.Operation → String → RestError → String)
    (ra : ApplicationApi) (planDiags : Diagnostics) (application : ApplicationLidarr)
    (resp : Response ApplicationLidarr)
    (hNoError : (resp.Diagnostics.Append planDiags).HasError = false) :
    (∀ response : ApplicationResource,
      ra.CreateApplications
        (application.read genericRead (resp.Diagnostics.Append planDiags)).1 =
        .ok response →
      (ApplicationLidarrResource.Create genericRead genericWrite ParseClientError ra
        planDiags application resp).resp.Diagnostics =
        (application.write genericWrite response
          (application.read genericRead (resp.Diagnostics.Append planDiags)).2).2 ∧
      (ApplicationLidarrResource.Create genericRead genericWrite ParseClientError ra
        planDiags application resp).resp.State =
        some (application.write genericWrite response
          (application.read genericRead (resp.Diagnostics.Append planDiags)).2).1) ∧
    (∀ response : ApplicationResource,
      ra.UpdateApplications
        (Itoa (application.read genericRead (resp.Diagnostics.Append planDiags)).1.Id)
        (application.read genericRead (resp.Diagnostics.Append planDiags)).1 =
        .ok response →
      (ApplicationLidarrResource.Update genericRead genericWrite ParseClientError ra
        planDiags application resp).resp.Diagnostics =
        (application.write genericWrite response
          (application.read genericRead (resp.Diagnostics.Append planDiags)).2).2 ∧
      (ApplicationLidarrResource.Update genericRead genericWrite ParseClientError ra
        planDiags application resp).resp.State =
        some (application.write genericWrite response
          (application.read genericRead (resp.Diagnostics.Append planDiags)).2).1) := by
  refine ⟨?_, ?_⟩
  · intro response h
    rw [lidarr_create_ok genericRead genericWrite ParseClientError ra planDiags application
      resp response hNoError h]
    exact ⟨rfl, rfl⟩
  · intro response h
    rw [lidarr_update_ok genericRead genericWrite ParseClientError ra planDiags application
      resp response hNoError h]
    exact ⟨rfl, rfl⟩

/-- Witness of C14 (amended): Create, from an empty state, on a client whose update
call fails and whose create call succeeds, with a generic write that reports a coercion
failure; the state is set and the error is in the diagnostics. -/
theorem lidarr_write_error_still_sets_state_witness :
    (ApplicationLidarrResource.Create plainApplicationRead mismatchApplicationWrite
      specParseClientError
      { failingApplicationApi notFoundError with
        CreateApplications := fun _ => .ok lidarrWire }
      [] lidarrExample { Diagnostics := [], State := none }).resp.State =
      some (lidarrExample.write mismatchApplicationWrite lidarrWire
        (lidarrExample.read plainApplicationRead (Diagnostics.Append [] [])).2).1 ∧
    (ApplicationLidarrResource.Create plainApplicationRead mismatchApplicationWrite
      specParseClientError
      { failingApplicationApi notFoundError with
        CreateApplications := fun _ => .ok lidarrWire }
      [] lidarrExample { Diagnostics := [], State := none }).resp.Diagnostics =
      (lidarrExample.write mismatchApplicationWrite lidarrWire
        (lidarrExample.read plainApplicationRead (Diagnostics.Append [] [])).2).2 ∧
    (lidarrExample.write mismatchApplicationWrite lidarrWire []).2.HasError = true :=
  have h := (lidarr_write_error_still_sets_state plainApplicationRead
    mismatchApplicationWrite specParseClientError
    { failingApplicationApi notFoundError with
      CreateApplications := fun _ => .ok lidarrWire }
    [] lidarrExample { Diagnostics := [], State := none } rfl).1 lidarrWire rfl
  ⟨h.2, h.1, by decide⟩

/-- C15, evaluation at the failing input. With clients whose every call fails with the
error text "boom" and the message function of the specification, the four Lidarr
handlers and Create, Read and Update of Apprise report their own operation and
resource type, and Delete of Apprise reports the operation read. -/
theorem apprise_delete_error_names_read :
    ((ApplicationLidarrResource.Create plainApplicationRead mismatchApplicationWrite
        specParseClientError (failingApplicationApi { code := 500, msg := "boom" }) []
        lidarrExample { Diagnostics := [], State := none }).resp.Diagnostics =
        [{ severity := Severity.error, summary := "Client Error"
           detail := "Unable to create application_lidarr, got error: boom" }] ∧
      (ApplicationLidarrResource.Read mismatchApplicationWrite
        specParseClientError (failingApplicationApi { code := 500, msg := "boom" }) []
        lidarrExample { Diagnostics := [], State := some lidarrExample }).resp.Diagnostics =
        [{ severity := Severity.error, summary := "Client Error"
           detail := "Unable to read application_lidarr, got error: boom" }] ∧
      (ApplicationLidarrResource.Update plainApplicationRead mismatchApplicationWrite
        specParseClientError (failingApplicationApi { code := 500, msg := "boom" }) []
        lidarrExample { Diagnostics := [], State := some lidarrExample }).resp.Diagnostics =
        [{ severity := Severity.error, summary := "Client Error"
           detail := "Unable to update application_lidarr, got error: boom" }] ∧
      (ApplicationLidarrResource.Delete
        specParseClientError (failingApplicationApi { code := 500, msg := "boom" }) []
        4 { Diagnostics := [], State := some lidarrExample }).resp.Diagnostics =
        [{ severity := Severity.error, summary := "Client Error"
           detail := "Unable to delete application_lidarr, got error: boom" }]) ∧
    ((NotificationAppriseResource.Create (fun _ => appriseWire) (fun g _ => g)
        specParseClientError (failingNotificationApi { code := 500, msg := "boom" }) []
        appriseExample { Diagnostics := [], State := none }).resp.Diagnostics =
        [{ severity := Severity.error, summary := "Client Error"
           detail := "Unable to create notification_apprise, got error: boom" }] ∧
      (NotificationAppriseResource.Read (fun g _ => g)
        specParseClientError (failingNotificationApi { code := 500, msg := "boom" }) []
        appriseExample { Diagnostics := [], State := some appriseExample }).resp.Diagnostics =
        [{ severity := Severity.error, summary := "Client Error"
           detail := "Unable to read notification_apprise, got error: boom" }] ∧
      (NotificationAppriseResource.Update (fun _ => appriseWire) (fun g _ => g)
        specParseClientError (failingNotificationApi { code := 500, msg := "boom" }) []
        appriseExample { Diagnostics := [], State := some appriseExample }).resp.Diagnostics =
        [{ severity := Severity.error, summary := "Client Error"
           detail := "Unable to update notification_apprise, got error: boom" }] ∧
      (NotificationAppriseResource.Delete
        specParseClientError (failingNotificationApi { code := 500, msg := "boom" }) []
        appriseExample { Diagnostics := [], State := some appriseExample }).resp.Diagnostics =
        [{ severity := Severity.error, summary := "Client Error"
           detail := "Unable to read notification_apprise, got error: boom" }]) := by
  decide

end Provider
